import Mathlib

/-!
Shallow embedding of the UEFI ntfs-3g bridge layer (pbatard/ntfs-3g-old).

The repository contains two generations of the driver side by side:
* the newer pair `uefi-driver/uefi_file.c` + `uefi-driver/bridge.c`
  (open-instance lookup registry, parent/grandparent close-reopen dance,
  two-pass directory cache) — embedded in namespaces `UefiFile` and `Bridge`;
* the older pair `uefi-driver/file.c` + `uefi-driver/uefi_bridge.c`
  (volume-serial media-change detection, per-read directory iteration) —
  embedded in namespaces `OldFile` and `UefiBridge`.

The libntfs-3g engine itself (inode resolution, attribute reads, delete,
mount) is not part of the bridge sources; it is consumed through a narrow
opaque-handle API and is modelled here as oracle functions carried by the
`Engine` / `MountEngine` structures.  Paths are modelled as lists of path
segments (the cleaned, absolute paths produced by `CleanPath`): `[]` is the
root path "/" and `[a, b]` is "/a/b"; segment atoms are natural numbers.
-/

/-- EFI_STATUS codes used by the bridge layer.  `warnDeleteFailure` is the
one warning code (high bit clear); every constructor except `success` and
`warnDeleteFailure` is an error code (`EFI_ERROR` true). -/
inductive EfiStatus where
  | success
  | warnDeleteFailure
  | accessDenied
  | notFound
  | outOfResources
  | volumeCorrupted
  | noMedia
  | mediaChanged
  | unsupported
  | invalidParameter
  | deviceError
  | bufferTooSmall
  | writeProtected
  | protocolError
  | noMapping
  | endOfFile
  | aborted
  | securityViolation
  | volumeFull
  | notReady
deriving DecidableEq, Repr

/-- `EFI_ERROR(Status)`: true iff the high bit of the status is set, i.e.
for every code except `EFI_SUCCESS` and the warning `EFI_WARN_DELETE_FAILURE`. -/
def EfiStatus.isError : EfiStatus → Bool
  | .success => false
  | .warnDeleteFailure => false
  | _ => true

/-- `GetInodeNumber(x)`, i.e. `(x) & 0xFFFFFFFFFFFF` (uefi_bridge.h). -/
def GetInodeNumber (x : Nat) : Nat := x % 2 ^ 48

/-- `FILE_ROOT` (inode number of the root directory, uefi_bridge.h). -/
def FILE_ROOT : Nat := 5

/-- `FILE_FIRST_USER` (first non-system inode number, uefi_bridge.h). -/
def FILE_FIRST_USER : Nat := 16

namespace UefiFile

/-- The subset of EFI_NTFS_FILE consulted by FileSetPosition
(uefi_file.c): directory flag, engine inode pointer, directory cursor,
byte offset; `dataSize` is the inode data size `NtfsGetFileSize` reads. -/
structure SeekFile where
  isDir : Bool
  ntfsInode : Option Nat
  dirPos : Nat
  offset : Nat
  dataSize : Nat
deriving DecidableEq, Repr

/-- `FileSetPosition` from uefi_file.c: NULL-inode guard, then the
directory branch (only position zero is accepted, per the UEFI spec quote
in the source; a non-zero position yields EFI_UNSUPPORTED), then the file
branch with the 0xFFFFFFFFFFFFFFFF = end-of-file convention. -/
def FileSetPosition (f : SeekFile) (Position : Nat) : EfiStatus × SeekFile :=
  if f.ntfsInode = none then (.deviceError, f)
  else if f.isDir then
    if Position ≠ 0 then (.unsupported, f)
    else (.success, { f with dirPos := 0 })
  else
    let Position := if Position = 0xFFFFFFFFFFFFFFFF then f.dataSize else Position
    if Position > f.dataSize then (.unsupported, f)
    else (.success, { f with offset := Position })

end UefiFile

namespace OldFile

/-- `FileSetPosition` from file.c (the older driver generation): the
directory branch rejects a non-zero position with EFI_INVALID_PARAMETER
and resets `DirIndex`; no NULL-inode guard and no 0xFFFF... convention. -/
def FileSetPosition (f : UefiFile.SeekFile) (Position : Nat) : EfiStatus × UefiFile.SeekFile :=
  if f.isDir then
    if Position ≠ 0 then (.invalidParameter, f)
    else (.success, { f with dirPos := 0 })
  else if Position > f.dataSize then (.unsupported, f)
  else (.success, { f with offset := Position })

end OldFile

namespace Bridge

/-- The read loop of `NtfsReadFile` (bridge.c): repeatedly call
`ntfs_attr_pread` (the oracle `pread`, taking the current offset and the
remaining size and returning the signed byte count) until the remaining
size is zero.  A non-positive or over-long return aborts the read: when
the return is non-negative the code sets `errno = EIO` (translated to
EFI_PROTOCOL_ERROR by ErrnoToEfiStatus), otherwise the engine's errno is
translated (oracle `errStatus`).  The C loop is bounded by the remaining
size because every continuing iteration reads at least one byte; `fuel`
makes that bound explicit.  Returns (status, *Len, new File->Offset). -/
def readLoop (pread : Nat → Nat → Int) (errStatus : EfiStatus) :
    Nat → Nat → Nat → Nat → EfiStatus × Nat × Nat
  | 0, offset, size, len =>
    if size = 0 then (.success, len, offset) else (errStatus, len, offset)
  | fuel + 1, offset, size, len =>
    if size = 0 then (.success, len, offset)
    else
      let ret := pread offset size
      if ret ≤ 0 ∨ (size : Int) < ret then
        ((if 0 ≤ ret then EfiStatus.protocolError else errStatus), len, offset)
      else readLoop pread errStatus fuel (offset + ret.toNat) (size - ret.toNat) (len + ret.toNat)

/-- `NtfsReadFile` (bridge.c): open the unnamed data attribute (oracle
`attrOpen`; `none` models an ntfs_attr_open failure, translated through
ErrnoToEfiStatus = `errStatus`), clamp the requested length against
`data_size` — a read starting at or past the end returns success with
zero bytes, a read extending past the end is truncated — then run the
read loop.  Returns (status, *Len, new File->Offset). -/
def NtfsReadFile (attrOpen : Option Nat) (pread : Nat → Nat → Int)
    (errStatus : EfiStatus) (offset reqLen : Nat) : EfiStatus × Nat × Nat :=
  match attrOpen with
  | none => (errStatus, 0, offset)
  | some dataSize =>
    if dataSize < offset + reqLen then
      if dataSize < offset then (.success, 0, offset)
      else readLoop pread errStatus (dataSize - offset + 1) offset (dataSize - offset) 0
    else readLoop pread errStatus (reqLen + 1) offset reqLen 0

end Bridge

/-- Classification of a failed `ntfs_mount`, as returned by
`ntfs_volume_error(errno)` (libntfs-3g). -/
inductive VolErr where
  | corrupt
  | locked
  | noPrivilege
  | outOfMemory
  | other
deriving DecidableEq, Repr

/-- Engine-side oracles consumed by the two NtfsMountVolume variants:
whether the device-path UTF-8 conversion succeeds (and the translated
errno status if not), and the result of `ntfs_mount` — either a mounted
volume (engine instance id, volume serial, cached label) or a failure
classified by `ntfs_volume_error`. -/
structure MountEngine where
  convOk : Bool
  convErrStatus : EfiStatus
  mountRes : Option (Nat × Nat × Option Nat)
  mountErr : VolErr
deriving DecidableEq, Repr

/-- The volume-level fields of EFI_FS touched by mount/unmount: the mount
reference count, total open-file reference count, the cached volume serial
(0 = none recorded), cached label, engine volume instance, membership of
the process-wide FsList, the (newer driver's) lookup-registry list, and a
ghost counter of engine mount calls. -/
structure VolState where
  mountCount : Nat
  totalRefCount : Int
  serial : Nat
  label : Option Nat
  volume : Option Nat
  inFsList : Bool
  lookupList : List Nat
  engineMounts : Nat
deriving DecidableEq, Repr

namespace UefiBridge

/-- `NtfsMountVolume` from uefi_bridge.c.  `MountCount++ > 0` short-cuts
an already-mounted volume.  Otherwise the filesystem is inserted into the
process-wide list, `ntfs_mount` is attempted, a failure is classified
(corrupt → volumeCorrupted, locked/noPrivilege → accessDenied,
outOfMemory → outOfResources, otherwise notFound) — but any failure on a
volume with a previously recorded non-zero serial is overridden to
noMedia — and a successful remount whose serial differs from the recorded
one is reported as mediaChanged.  Every error path removes the filesystem
from the list again; success records serial, engine instance and label. -/
def NtfsMountVolume (eng : MountEngine) (st : VolState) : EfiStatus × VolState :=
  if 0 < st.mountCount then (.success, { st with mountCount := st.mountCount + 1 })
  else
    let st0 := { st with mountCount := st.mountCount + 1 }
    if eng.convOk = false then (eng.convErrStatus, st0)
    else
      let st1 := { st0 with inFsList := true, engineMounts := st0.engineMounts + 1 }
      match eng.mountRes with
      | none =>
        let s0 : EfiStatus :=
          match eng.mountErr with
          | .corrupt => .volumeCorrupted
          | .locked => .accessDenied
          | .noPrivilege => .accessDenied
          | .outOfMemory => .outOfResources
          | .other => .notFound
        let s1 := if st.serial ≠ 0 then EfiStatus.noMedia else s0
        (s1, { st1 with inFsList := false })
      | some (vid, vserial, vlabel) =>
        if st.serial ≠ 0 ∧ vserial ≠ st.serial then
          (.mediaChanged, { st1 with inFsList := false })
        else
          (.success, { st1 with serial := vserial, volume := some vid, label := vlabel })

end UefiBridge

namespace Bridge

/-- `NtfsMountVolume` from bridge.c (newer driver generation): same
`MountCount++ > 0` short-cut; a real mount inserts the filesystem into
the process-wide list, initializes the lookup registry, and maps any
`ntfs_mount` failure to notFound. -/
def NtfsMountVolume (eng : MountEngine) (st : VolState) : EfiStatus × VolState :=
  if 0 < st.mountCount then (.success, { st with mountCount := st.mountCount + 1 })
  else
    let st0 := { st with mountCount := st.mountCount + 1 }
    if eng.convOk = false then (eng.convErrStatus, st0)
    else
      let st1 :=
        { st0 with inFsList := true, lookupList := [], engineMounts := st0.engineMounts + 1 }
      match eng.mountRes with
      | none => (.notFound, { st1 with inFsList := false })
      | some (vid, _, vlabel) =>
        (.success, { st1 with volume := some vid, label := vlabel })

end Bridge

namespace UefiFile

/-- One directory entry as delivered by the engine's `ntfs_readdir`
callback: the UTF-16 name (a list of code units), the raw MREF (whose low
48 bits are the inode number) and the dirent type (4 = directory). -/
structure DirEnt where
  name : List Nat
  mref : Nat
  dtType : Nat
deriving DecidableEq, Repr

/-- `SIZE_OF_EFI_FILE_INFO`: byte size of the fixed part of EFI_FILE_INFO. -/
def SIZE_OF_EFI_FILE_INFO : Nat := 80

/-- Serialized size of one cached record:
`SIZE_OF_EFI_FILE_INFO + (NameLen + 1) * sizeof(CHAR16)`. -/
def entByteSize (e : DirEnt) : Nat := SIZE_OF_EFI_FILE_INFO + (e.name.length + 1) * 2

/-- The filter both DirHook passes apply: skip system files
(`GetInodeNumber(MRef) < FILE_FIRST_USER`) except the root object itself. -/
def keepEnt (e : DirEnt) : Bool :=
  !(decide (GetInodeNumber e.mref < FILE_FIRST_USER) &&
    decide (GetInodeNumber e.mref ≠ FILE_ROOT))

/-- One step of `DirHookCount` (first pass, uefi_file.c): on a kept entry
increment `DirEntryCount` and raise `DirEntrySize` to this entry's
serialized size. The accumulator is (DirEntryCount, DirEntrySize). -/
def DirHookCount (acc : Nat × Nat) (e : DirEnt) : Nat × Nat :=
  if keepEnt e then (acc.1 + 1, max acc.2 (entByteSize e)) else acc

/-- The full first pass: fold `DirHookCount` over the enumeration,
starting from `DirEntryCount = 0`, `DirEntrySize = 0`. -/
def countPass (entries : List DirEnt) : Nat × Nat :=
  entries.foldl DirHookCount (0, 0)

/-- One record of the directory cache: the copied name, the per-record
`Info->Size`, and the metadata filled in by `NtfsGetFileInfo` (abstracted
to an opaque payload obtained from the engine oracle). -/
structure DirRecord where
  name : List Nat
  size : Nat
  infoPayload : Nat
deriving DecidableEq, Repr

/-- Second pass (`DirHookCache`, uefi_file.c), folded over the remaining
enumeration with `pos` the current `DirPos`.  On a kept entry: fail if
`DirPos` already reached `DirEntryCount` (entry appeared between the
passes), fail if the name no longer fits `DirEntrySize`, copy the name and
size, and query `NtfsGetFileInfo` (oracle `g`, taking the MREF and the
`DtType == 4` directory flag) which may also fail.  `none` models the
callback returning -1 and the listing aborting. -/
def DirHookCache (g : Nat → Bool → Option Nat) (count entrySize : Nat) :
    List DirEnt → Nat → Option (List DirRecord)
  | [], _ => some []
  | e :: rest, pos =>
    if keepEnt e = false then DirHookCache g count entrySize rest pos
    else if count ≤ pos then none
    else if entrySize < entByteSize e then none
    else
      match g e.mref (decide (e.dtType = 4)) with
      | none => none
      | some payload =>
        match DirHookCache g count entrySize rest (pos + 1) with
        | none => none
        | some rs => some ({ name := e.name, size := entByteSize e, infoPayload := payload } :: rs)

/-- `FileReadDirCache` (uefi_file.c): run the counting pass, allocate
`DirEntryCount * DirEntrySize` bytes, run the filling pass, and reset
`DirPos` to 0.  Returns the cache array together with `DirEntryCount` and
`DirEntrySize`, or `none` when a pass failed. -/
def FileReadDirCache (g : Nat → Bool → Option Nat) (entries : List DirEnt) :
    Option (List DirRecord × Nat × Nat) :=
  match DirHookCache g (countPass entries).1 (countPass entries).2 entries 0 with
  | none => none
  | some recs => some (recs, (countPass entries).1, (countPass entries).2)

/-- The record the filling pass produces for a kept entry `e`. -/
def cacheRecord (g : Nat → Bool → Option Nat) (e : DirEnt) : DirRecord :=
  { name := e.name, size := entByteSize e,
    infoPayload := (g e.mref (decide (e.dtType = 4))).getD 0 }

/-- `FileReturnDirEntry` (uefi_file.c): a read with `DirPos` at or past
`DirEntryCount` is a successful zero-length read (end of directory, cache
kept); otherwise the record at the cursor is returned if the caller's
buffer (`bufLen`) can hold it — on EFI_BUFFER_TOO_SMALL the cursor does
not move and `*Len` keeps the caller's value.  Result: (status, *Len, new
DirPos, copied record). -/
def FileReturnDirEntry (cache : List DirRecord) (count dirPos bufLen : Nat) :
    EfiStatus × Nat × Nat × Option DirRecord :=
  if count ≤ dirPos then (.success, 0, dirPos, none)
  else
    let info := (cache[dirPos]?).getD { name := [], size := 0, infoPayload := 0 }
    if bufLen < info.size then (.bufferTooSmall, bufLen, dirPos, none)
    else (.success, info.size, dirPos + 1, some info)

end UefiFile

/-- An in-memory engine inode instance (`ntfs_inode*`): the on-disk inode
number `mftNo`, a generation tag `gen` distinguishing successive open
instances of the same on-disk object, and the dirty flag tested by
`IS_DIRTY` (NInoDirty / NInoAttrListDirty). -/
structure Inode where
  mftNo : Nat
  gen : Nat
  dirty : Bool
deriving DecidableEq, Repr

/-- The fields of EFI_NTFS_FILE used by the open/close/delete state
machine (newer driver generation): the cleaned absolute path (as segment
list; `[]` is "/", and the base name is the last segment, mirroring the
`BaseName` pointer into the path buffer), the signed reference count, the
root and directory flags, and the opaque engine inode (`none` = NULL). -/
structure FileRec where
  path : List Nat
  refCount : Int
  isRoot : Bool
  isDir : Bool
  inode : Option Inode
deriving DecidableEq, Repr

/-- The bridge-layer state: the heap of allocated EFI_NTFS_FILE objects
(indexed by an allocation id; `none` = not allocated / freed), the next
fresh id, the lookup registry (`LookupListHead`, a list of ids of
registered files in insertion order), the EFI_FS counters, the cached
label and FsList membership, and ghost instrumentation: `openGen` is the
next engine instance generation, `engineOpens` counts engine
open/resolve calls, `engineDeletes` counts `ntfs_delete` calls,
`logErrors` counts PrintError reports. -/
structure FsState where
  files : Nat → Option FileRec
  nextId : Nat
  lookup : List Nat
  totalRefCount : Int
  mountCount : Nat
  label : Option Nat
  inFsList : Bool
  openGen : Nat
  engineOpens : Nat
  engineDeletes : Nat
  logErrors : Nat

/-- Engine-side oracles for the lifecycle operations: `canOpen n` is
whether `ntfs_inode_open(vol, n)` succeeds; `resolve base rel` is
`ntfs_pathname_to_inode(vol, base, rel)` (base inode number or NULL,
relative path segments, resulting inode number or failure); `nodeIsDir`
is the on-disk `MFT_RECORD_IS_DIRECTORY` flag; `deleteOk n` is whether
`ntfs_delete` on object `n` succeeds; `readOnly` is
`NtfsIsVolumeReadOnly`; `errStatus` is the `ErrnoToEfiStatus()`
translation of the engine's errno at a failure site. -/
structure Engine where
  canOpen : Nat → Bool
  resolve : Option Nat → List Nat → Option Nat
  nodeIsDir : Nat → Bool
  deleteOk : Nat → Bool
  readOnly : Bool
  errStatus : EfiStatus

namespace Bridge

/-- Heap update: overwrite the file record stored at id `fid`. -/
def setF (st : FsState) (fid : Nat) (f : FileRec) : FsState :=
  { st with files := fun n => if n = fid then some f else st.files n }

/-- The match performed on one lookup-list entry by `NtfsLookup`
(bridge.c): with `inum = 0` the probe path is compared against the
entry's path, an empty probe path also matching the registered root;
with `inum ≠ 0` the entry's inode number is compared against
`GetInodeNumber inum`.  A dangling id (no heap record) matches nothing. -/
def lookupMatches (st : FsState) (path : List Nat) (inum : Nat) (eid : Nat) : Bool :=
  match st.files eid with
  | none => false
  | some e =>
    if inum = 0 then
      (decide (path = []) && e.isRoot) || decide (path = e.path)
    else
      match e.inode with
      | some i => decide (i.mftNo = GetInodeNumber inum)
      | none => false

/-- `NtfsLookup` (bridge.c): scan the lookup list for an existing file
instance, by path when `inum = 0` and by inode number otherwise. -/
def NtfsLookup (st : FsState) (path : List Nat) (inum : Nat) : Option Nat :=
  st.lookup.find? (lookupMatches st path inum)

/-- The match performed on one entry by `NtfsLookupParent`: the entry
must be a different file whose path equals the probe file's path
truncated at the separator before its base name (`dropLast` in the
segment model); an empty truncated path matches the registered root. -/
def parentMatches (st : FsState) (fid : Nat) (dirPath : List Nat) (eid : Nat) : Bool :=
  if eid = fid then false
  else
    match st.files eid with
    | none => false
    | some e => (decide (dirPath = []) && e.isRoot) || decide (dirPath = e.path)

/-- `NtfsLookupParent` (bridge.c): look for a registered instance of the
parent directory of `fid`'s path (temporarily truncating the path buffer
in C; `List.dropLast` here). -/
def NtfsLookupParent (st : FsState) (fid : Nat) : Option Nat :=
  match st.files fid with
  | none => none
  | some f => st.lookup.find? (parentMatches st fid f.path.dropLast)

/-- `NtfsLookupAdd` (bridge.c): append the file to the lookup list
(`InsertTailList`). -/
def NtfsLookupAdd (st : FsState) (fid : Nat) : FsState :=
  { st with lookup := st.lookup ++ [fid] }

/-- `NtfsLookupRem` (bridge.c): remove the first list entry referencing
the file; a no-op when the file is not registered. -/
def NtfsLookupRem (st : FsState) (fid : Nat) : FsState :=
  { st with lookup := st.lookup.erase fid }

/-- `NtfsAllocateFile` (bridge.c) as used by FileOpen: allocate a zeroed
file shell (refCount 0, no inode) carrying the already-built cleaned
path.  Returns the new state and the shell's id. -/
def NtfsAllocateFile (st : FsState) (path : List Nat) : FsState × Nat :=
  ({ st with
      files := fun n => if n = st.nextId then
        some { path := path, refCount := 0, isRoot := false, isDir := false, inode := none }
        else st.files n,
      nextId := st.nextId + 1 },
   st.nextId)

/-- `NtfsFreeFile` (bridge.c): release the file object and its path
buffer, but only when its reference count is ≤ 0. -/
def NtfsFreeFile (st : FsState) (fid : Nat) : FsState :=
  match st.files fid with
  | none => st
  | some f =>
    if f.refCount ≤ 0 then
      { st with files := fun n => if n = fid then none else st.files n }
    else st

/-- `ntfs_inode_open(vol, num)`: engine oracle `canOpen` decides success;
a fresh instance gets the next generation tag and is clean.  Both
outcomes count one engine open. -/
def engOpenInode (eng : Engine) (st : FsState) (num : Nat) : Option Inode × FsState :=
  if eng.canOpen num then
    (some { mftNo := num, gen := st.openGen, dirty := false },
     { st with openGen := st.openGen + 1, engineOpens := st.engineOpens + 1 })
  else (none, { st with engineOpens := st.engineOpens + 1 })

/-- `ntfs_pathname_to_inode(vol, base, rel)`: engine oracle `resolve`
names the resulting inode; a fresh instance gets the next generation tag.
Both outcomes count one engine open. -/
def engResolve (eng : Engine) (st : FsState) (base : Option Nat) (rel : List Nat) :
    Option Inode × FsState :=
  match eng.resolve base rel with
  | some num =>
    (some { mftNo := num, gen := st.openGen, dirty := false },
     { st with openGen := st.openGen + 1, engineOpens := st.engineOpens + 1 })
  | none => (none, { st with engineOpens := st.engineOpens + 1 })

/-- The prefix walk of `NtfsOpenInodeFromPath` (bridge.c): starting from
the whole path, repeatedly truncate at the last separator and probe the
lookup list, i.e. find the longest strict prefix (possibly the empty
prefix, which matches a registered root) with an open instance.  Returns
the registered ancestor's id and the prefix length. -/
def findOpenAncestor (st : FsState) (path : List Nat) : Option (Nat × Nat) :=
  (List.range path.length).reverse.findSome? fun k =>
    (NtfsLookup st (path.take k) 0).map fun fid => (fid, k)

/-- `NtfsOpenInodeFromPath` (bridge.c): the root path opens FILE_root
directly; otherwise resolve the suffix below the nearest already-open
ancestor (volume root, i.e. NULL base, when none is registered). -/
def NtfsOpenInodeFromPath (eng : Engine) (st : FsState) (path : List Nat) :
    Option Inode × FsState :=
  if path = [] then engOpenInode eng st FILE_ROOT
  else
    match findOpenAncestor st path with
    | some (pid, k) =>
      let base :=
        match st.files pid with
        | some p => p.inode.map (fun i => i.mftNo)
        | none => none
      engResolve eng st base (path.drop k)
    | none => engResolve eng st none path

/-- `NtfsOpenFile` (bridge.c): probe the lookup registry for an instance
with the same path — on a hit, free the freshly allocated shell and
return the registered instance; on a miss, set the root flag, resolve the
inode from the path, record the directory flag, and register the file.
Returns (status, state, id of the file the caller must use). -/
def NtfsOpenFile (eng : Engine) (st : FsState) (fid : Nat) : EfiStatus × FsState × Nat :=
  match st.files fid with
  | none => (.invalidParameter, st, fid)
  | some f =>
    match NtfsLookup st f.path 0 with
    | some eid => (.success, NtfsFreeFile st fid, eid)
    | none =>
      let f1 := { f with isRoot := decide (f.path = []) }
      match NtfsOpenInodeFromPath eng st f.path with
      | (none, st1) => (eng.errStatus, setF st1 fid f1, fid)
      | (some ino, st1) =>
        let f2 := { f1 with inode := some ino, isDir := eng.nodeIsDir ino.mftNo }
        (.success, NtfsLookupAdd (setF st1 fid f2) fid, fid)

/-- `NtfsUnmountVolume` (bridge.c): `ntfs_umount` the engine instance,
free the lookup list and the cached label, zero both counters and remove
the filesystem from the process-wide list. -/
def NtfsUnmountVolume (st : FsState) : FsState :=
  { st with lookup := [], label := none, mountCount := 0,
            totalRefCount := 0, inFsList := false }

/-- `NtfsCloseFile` (bridge.c): if the inode is dirty, a registered
parent instance must be closed first (remembering its inode number),
because the engine's writeback on closing the dirty child reopens the
parent by number; the child is then closed, the parent reopened by the
recorded number and re-linked (on reopen failure: error is reported and
the parent unregistered), and finally the file is unregistered. -/
def NtfsCloseFile (eng : Engine) (st : FsState) (fid : Nat) : FsState :=
  match st.files fid with
  | none => st
  | some f =>
    let dirty := match f.inode with | some i => i.dirty | none => false
    match (if dirty then NtfsLookupParent st fid else none) with
    | none => NtfsLookupRem st fid
    | some pid =>
      let pnum :=
        match st.files pid with
        | some p => (match p.inode with | some i => i.mftNo | none => 0)
        | none => 0
      let (ino, st1) := engOpenInode eng st pnum
      let st2 :=
        match ino, st1.files pid with
        | some i, some p => setF st1 pid { p with inode := some i }
        | none, some p =>
          NtfsLookupRem
            { (setF st1 pid { p with inode := none }) with logErrors := st1.logErrors + 1 } pid
        | _, none => st1
      NtfsLookupRem st2 fid

/-- `NtfsDeleteFile` (bridge.c): when a registered parent exists, a
registered non-root grandparent's engine inode is closed in advance
(remembering its number) because deleting dirties the parent and the
parent's close-triggered writeback may reopen the grandparent; the
engine `ntfs_delete` (which also closes the passed directory inode) is
run, the file is unregistered regardless of the outcome, a failed delete
reports the soft warnDeleteFailure, and the parent and grandparent are
reopened by their recorded numbers — a failed reopen unregisters the
node and returns the translated errno status. -/
def NtfsDeleteFile (eng : Engine) (st : FsState) (fid : Nat) : EfiStatus × FsState :=
  match st.files fid with
  | none => (eng.errStatus, st)
  | some f =>
    let fnum := match f.inode with | some i => i.mftNo | none => 0
    match NtfsLookupParent st fid with
    | none =>
      let (dirNi, st1) := NtfsOpenInodeFromPath eng st f.path.dropLast
      let ok := (match dirNi with | some _ => eng.deleteOk fnum | none => false)
      let st2 := NtfsLookupRem { st1 with engineDeletes := st1.engineDeletes + 1 } fid
      if ok then (.success, st2)
      else (.warnDeleteFailure, { st2 with logErrors := st2.logErrors + 1 })
    | some pid =>
      let gp :=
        match NtfsLookupParent st pid with
        | some gid =>
          match st.files gid with
          | some g =>
            if g.isRoot then none
            else some (gid, (match g.inode with | some i => i.mftNo | none => 0))
          | none => none
        | none => none
      let pnum :=
        match st.files pid with
        | some p => (match p.inode with | some i => i.mftNo | none => 0)
        | none => 0
      let ok := eng.deleteOk fnum
      let st2 := NtfsLookupRem { st with engineDeletes := st.engineDeletes + 1 } fid
      if ok = false then (.warnDeleteFailure, { st2 with logErrors := st2.logErrors + 1 })
      else
        let (pino, st3) := engOpenInode eng st2 pnum
        match pino, st3.files pid with
        | some i, some p =>
          let st4 := setF st3 pid { p with inode := some i }
          match gp with
          | none => (.success, st4)
          | some (gid, gnum) =>
            let (gino, st5) := engOpenInode eng st4 gnum
            match gino, st5.files gid with
            | some gi, some g => (.success, setF st5 gid { g with inode := some gi })
            | none, some g =>
              (eng.errStatus,
               NtfsLookupRem
                 { (setF st5 gid { g with inode := none }) with
                     logErrors := st5.logErrors + 1 } gid)
            | _, none => (eng.errStatus, st5)
        | none, some p =>
          (eng.errStatus,
           NtfsLookupRem
             { (setF st3 pid { p with inode := none }) with
                 logErrors := st3.logErrors + 1 } pid)
        | _, none => (eng.errStatus, st3)

end Bridge

namespace UefiFile

/-- The tail of `FileOpen` (uefi_file.c) for a non-create open, starting
at the point where the cleaned absolute path has been built: allocate a
file shell, run `NtfsOpenFile` (which may merge into an existing
registered instance), and on success bump the resulting file's reference
count and the volume's total reference count.  Returns (status, state,
returned handle id). -/
def FileOpenPath (eng : Engine) (st : FsState) (path : List Nat) :
    EfiStatus × FsState × Option Nat :=
  let a := Bridge.NtfsAllocateFile st path
  match Bridge.NtfsOpenFile eng a.1 a.2 with
  | (.success, st2, rid) =>
    match st2.files rid with
    | some r =>
      (.success,
       { (Bridge.setF st2 rid { r with refCount := r.refCount + 1 }) with
           totalRefCount := st2.totalRefCount + 1 },
       some rid)
    | none => (.deviceError, st2, none)
  | (status, st2, _) => (status, Bridge.NtfsFreeFile st2 a.2, none)

/-- `FileClose` (uefi_file.c): decrement the reference count; at zero,
run the bridge close (writeback choreography) and free the file; then
decrement the volume's total reference count, unmounting the volume when
it reaches zero.  Always returns EFI_SUCCESS. -/
def FileClose (eng : Engine) (st : FsState) (fid : Nat) : EfiStatus × FsState :=
  match st.files fid with
  | none => (.success, st)
  | some f =>
    let st1 := Bridge.setF st fid { f with refCount := f.refCount - 1 }
    let st2 :=
      if f.refCount - 1 ≤ 0 then Bridge.NtfsFreeFile (Bridge.NtfsCloseFile eng st1 fid) fid
      else st1
    let st3 := { st2 with totalRefCount := st2.totalRefCount - 1 }
    (.success, if st3.totalRefCount ≤ 0 then Bridge.NtfsUnmountVolume st3 else st3)

/-- Iterated `FileClose` on the same handle. -/
def closeN (eng : Engine) (st : FsState) (fid : Nat) : Nat → FsState
  | 0 => st
  | n + 1 => (FileClose eng (closeN eng st fid n) fid).2

/-- `FileDelete` (uefi_file.c): a root handle or a missing engine inode
is refused with EFI_ACCESS_DENIED; both reference counts are
decremented; a handle still holding other references — or a read-only
volume — reports the soft warnDeleteFailure without any engine call;
otherwise the bridge delete runs, the file is freed, and the volume is
unmounted when no open files remain. -/
def FileDelete (eng : Engine) (st : FsState) (fid : Nat) : EfiStatus × FsState :=
  match st.files fid with
  | none => (.accessDenied, st)
  | some f =>
    if f.isRoot || f.inode = none then (.accessDenied, st)
    else
      let st1 :=
        { (Bridge.setF st fid { f with refCount := f.refCount - 1 }) with
            totalRefCount := st.totalRefCount - 1 }
      if f.isRoot || 0 < f.refCount - 1 then (.warnDeleteFailure, st1)
      else if eng.readOnly then (.warnDeleteFailure, { st1 with logErrors := st1.logErrors + 1 })
      else
        let r := Bridge.NtfsDeleteFile eng st1 fid
        let st3 := Bridge.NtfsFreeFile r.2 fid
        (r.1, if st3.totalRefCount ≤ 0 then Bridge.NtfsUnmountVolume st3 else st3)

end UefiFile

/-! ## Helper lemmas -/

/-- `List.find?` only looks at the predicate's values on the list. -/
theorem findScanCongr {α : Type} {p q : α → Bool} :
    ∀ l : List α, (∀ x ∈ l, p x = q x) → l.find? p = l.find? q := by
  intro l
  induction l with
  | nil => intro _; rfl
  | cons a t ih =>
    intro h
    have ha := h a (List.mem_cons_self a t)
    rcases hq : q a with _ | _
    · rw [List.find?_cons_of_neg _ (by simp [ha, hq]), List.find?_cons_of_neg _ (by simp [hq])]
      exact ih fun x hx => h x (List.mem_cons_of_mem a hx)
    · rw [List.find?_cons_of_pos _ (by simp [ha, hq]), List.find?_cons_of_pos _ (by simp [hq])]

/-- Exhausted read loop on a zero remaining size: success, whatever the fuel. -/
theorem readLoop_size_zero (pread : Nat → Nat → Int) (errStatus : EfiStatus) :
    ∀ fuel offset len, Bridge.readLoop pread errStatus fuel offset 0 len =
      (.success, len, offset) := by
  intro fuel offset len
  cases fuel <;> simp [Bridge.readLoop]

/-- One full engine read consumes the whole remaining size. -/
theorem readLoop_full (pread : Nat → Nat → Int) (errStatus : EfiStatus)
    (hpread : ∀ o s, 0 < s → pread o s = (s : Int)) (m offset len : Nat) :
    Bridge.readLoop pread errStatus (m + 1 + 1) offset (m + 1) len =
      (.success, len + (m + 1), offset + (m + 1)) := by
  have hp := hpread offset (m + 1) (Nat.succ_pos m)
  rw [Bridge.readLoop, if_neg (Nat.succ_ne_zero m)]
  simp only [hp]
  rw [if_neg (by push_cast; omega)]
  rw [show ((m + 1 : Nat) : Int).toNat = m + 1 from by omega]
  rw [show m + 1 - (m + 1) = 0 from by omega, readLoop_size_zero]

/-! ## Claim theorems -/

/-- C9 (counterexample): the claim says a non-zero `SetPosition` on a
directory handle is rejected with the InvalidParameter status; on the
newer driver's `FileSetPosition` (uefi_file.c) a directory handle with a
live inode and position 1 is rejected with EFI_UNSUPPORTED instead. -/
theorem C9_counterexample :
    (UefiFile.FileSetPosition
        { isDir := true, ntfsInode := some 7, dirPos := 3, offset := 0, dataSize := 0 } 1).1 =
      EfiStatus.unsupported ∧
    (UefiFile.FileSetPosition
        { isDir := true, ntfsInode := some 7, dirPos := 3, offset := 0, dataSize := 0 } 1).1 ≠
      EfiStatus.invalidParameter := by
  constructor
  · rfl
  · decide

/-- C9 (amended): for every directory handle, a non-zero SetPosition is
rejected — with EFI_UNSUPPORTED by the newer uefi_file.c implementation
and with EFI_INVALID_PARAMETER by the older file.c implementation — and
leaves the handle unchanged; SetPosition(0) succeeds in both and resets
the enumeration cursor to the start, which is the only permitted position
change on a directory handle. -/
theorem C9_dir_set_position (f : UefiFile.SeekFile) (Position : Nat)
    (hdir : f.isDir = true) (hino : f.ntfsInode ≠ none) :
    (Position ≠ 0 →
       UefiFile.FileSetPosition f Position = (.unsupported, f) ∧
       OldFile.FileSetPosition f Position = (.invalidParameter, f)) ∧
    (UefiFile.FileSetPosition f 0 = (.success, { f with dirPos := 0 }) ∧
     OldFile.FileSetPosition f 0 = (.success, { f with dirPos := 0 })) := by
  refine ⟨fun hp => ⟨?_, ?_⟩, ?_, ?_⟩ <;>
    simp [UefiFile.FileSetPosition, OldFile.FileSetPosition, hdir, hino, *]

/-- Witness for C9_dir_set_position at a concrete directory handle. -/
theorem C9_dir_set_position_witness :
    ((3 : Nat) ≠ 0 →
       UefiFile.FileSetPosition
         { isDir := true, ntfsInode := some 1, dirPos := 5, offset := 2, dataSize := 9 } 3 =
         (.unsupported,
          { isDir := true, ntfsInode := some 1, dirPos := 5, offset := 2, dataSize := 9 }) ∧
       OldFile.FileSetPosition
         { isDir := true, ntfsInode := some 1, dirPos := 5, offset := 2, dataSize := 9 } 3 =
         (.invalidParameter,
          { isDir := true, ntfsInode := some 1, dirPos := 5, offset := 2, dataSize := 9 })) ∧
    (UefiFile.FileSetPosition
       { isDir := true, ntfsInode := some 1, dirPos := 5, offset := 2, dataSize := 9 } 0 =
       (.success,
        { ({ isDir := true, ntfsInode := some 1, dirPos := 5, offset := 2,
             dataSize := 9 } : UefiFile.SeekFile) with dirPos := 0 }) ∧
     OldFile.FileSetPosition
       { isDir := true, ntfsInode := some 1, dirPos := 5, offset := 2, dataSize := 9 } 0 =
       (.success,
        { ({ isDir := true, ntfsInode := some 1, dirPos := 5, offset := 2,
             dataSize := 9 } : UefiFile.SeekFile) with dirPos := 0 })) :=
  C9_dir_set_position
    { isDir := true, ntfsInode := some 1, dirPos := 5, offset := 2, dataSize := 9 } 3
    rfl (by decide)

/-- C10: on a file handle whose data attribute opens with size `ds` and
whose engine pread delivers full reads, `NtfsReadFile` returns success
with zero bytes (offset untouched) whenever the current offset is at or
beyond `ds`, and silently truncates a request extending past the end to
the `ds - offset` bytes remaining, returning success with that length. -/
theorem C10_read_end_clamp (pread : Nat → Nat → Int) (errStatus : EfiStatus)
    (ds offset reqLen : Nat)
    (hpread : ∀ o s, 0 < s → pread o s = (s : Int)) :
    (ds ≤ offset →
       Bridge.NtfsReadFile (some ds) pread errStatus offset reqLen = (.success, 0, offset)) ∧
    (offset < ds → ds < offset + reqLen →
       Bridge.NtfsReadFile (some ds) pread errStatus offset reqLen =
         (.success, ds - offset, ds)) := by
  constructor
  · intro hend
    by_cases hc : ds < offset + reqLen
    · by_cases h2 : ds < offset
      · simp [Bridge.NtfsReadFile, hc, h2]
      · have h0 : ds - offset = 0 := by omega
        simp [Bridge.NtfsReadFile, hc, h2, h0, readLoop_size_zero]
    · have h0 : reqLen = 0 := by omega
      subst h0
      simp only [Bridge.NtfsReadFile, if_neg hc]
      exact readLoop_size_zero pread errStatus (0 + 1) offset 0
  · intro h1 h2
    have h3 : ¬ ds < offset := by omega
    obtain ⟨m, hm⟩ : ∃ m, ds - offset = m + 1 := ⟨ds - offset - 1, by omega⟩
    simp only [Bridge.NtfsReadFile, if_pos h2, if_neg h3, hm]
    rw [readLoop_full pread errStatus hpread]
    rw [show offset + (m + 1) = ds from by omega,
        show (0 : Nat) + (m + 1) = m + 1 from by omega, ← hm]

/-- Witness for C10_read_end_clamp with a fully-reading pread oracle,
data size 5, offset 2 and an over-long request of 10 bytes. -/
theorem C10_read_end_clamp_witness :
    ((5 : Nat) ≤ 2 →
       Bridge.NtfsReadFile (some 5) (fun _ s => (s : Int)) .deviceError 2 10 =
         (.success, 0, 2)) ∧
    (2 < 5 → 5 < 2 + 10 →
       Bridge.NtfsReadFile (some 5) (fun _ s => (s : Int)) .deviceError 2 10 =
         (.success, 5 - 2, 5)) :=
  C10_read_end_clamp (fun _ s => (s : Int)) .deviceError 5 2 10 (fun _ _ _ => rfl)

/-- C7: mounting an already-mounted volume (mount count > 0) only
increments the mount count and returns success, in both the bridge.c and
the uefi_bridge.c implementation: no engine mount is performed and the
registry entry, engine instance, cached label and serial are unchanged. -/
theorem C7_mount_idempotent (eng : MountEngine) (st : VolState)
    (h : 0 < st.mountCount) :
    Bridge.NtfsMountVolume eng st = (.success, { st with mountCount := st.mountCount + 1 }) ∧
    UefiBridge.NtfsMountVolume eng st =
      (.success, { st with mountCount := st.mountCount + 1 }) := by
  constructor <;>
    simp only [Bridge.NtfsMountVolume, UefiBridge.NtfsMountVolume, if_pos h]

/-- Witness for C7_mount_idempotent on a volume mounted three times. -/
theorem C7_mount_idempotent_witness :
    Bridge.NtfsMountVolume
        { convOk := true, convErrStatus := .noMapping, mountRes := none, mountErr := .other }
        { mountCount := 3, totalRefCount := 1, serial := 9, label := some 4, volume := some 8,
          inFsList := true, lookupList := [0], engineMounts := 1 } =
      (.success,
       { ({ mountCount := 3, totalRefCount := 1, serial := 9, label := some 4, volume := some 8,
            inFsList := true, lookupList := [0], engineMounts := 1 } : VolState) with
           mountCount := 3 + 1 }) ∧
    UefiBridge.NtfsMountVolume
        { convOk := true, convErrStatus := .noMapping, mountRes := none, mountErr := .other }
        { mountCount := 3, totalRefCount := 1, serial := 9, label := some 4, volume := some 8,
          inFsList := true, lookupList := [0], engineMounts := 1 } =
      (.success,
       { ({ mountCount := 3, totalRefCount := 1, serial := 9, label := some 4, volume := some 8,
            inFsList := true, lookupList := [0], engineMounts := 1 } : VolState) with
           mountCount := 3 + 1 }) :=
  C7_mount_idempotent
    { convOk := true, convErrStatus := .noMapping, mountRes := none, mountErr := .other }
    { mountCount := 3, totalRefCount := 1, serial := 9, label := some 4, volume := some 8,
      inFsList := true, lookupList := [0], engineMounts := 1 }
    (by decide)

/-- C6 (counterexample): the claim maps engine-reported corruption to a
volume-corrupted status on every failed mount; but on a volume with a
previously recorded non-zero serial (here 1), a corrupt-classified mount
failure is reported as EFI_NO_MEDIA, not EFI_VOLUME_CORRUPTED. -/
theorem C6_counterexample :
    (UefiBridge.NtfsMountVolume
        { convOk := true, convErrStatus := .noMapping, mountRes := none, mountErr := .corrupt }
        { mountCount := 0, totalRefCount := 0, serial := 1, label := none, volume := none,
          inFsList := false, lookupList := [], engineMounts := 0 }).1 = EfiStatus.noMedia ∧
    (UefiBridge.NtfsMountVolume
        { convOk := true, convErrStatus := .noMapping, mountRes := none, mountErr := .corrupt }
        { mountCount := 0, totalRefCount := 0, serial := 1, label := none, volume := none,
          inFsList := false, lookupList := [], engineMounts := 0 }).1 ≠
      EfiStatus.volumeCorrupted := by
  constructor
  · rfl
  · decide

/-- C6 (amended): on a fresh mount attempt (mount count 0, device-path
conversion succeeding), when no serial was previously recorded a failed
engine mount is mapped by error class — corruption to volumeCorrupted,
lock/lack of privilege to accessDenied, allocation failure to
outOfResources, anything else to notFound; with a previously recorded
non-zero serial *any* failed mount is reported as noMedia ("media
removed") instead; and a successful remount whose volume serial differs
from the recorded one is reported as the distinct mediaChanged
condition. -/
theorem C6_mount_failure_mapping (eng : MountEngine) (st : VolState)
    (hmc : st.mountCount = 0) (hconv : eng.convOk = true) :
    (eng.mountRes = none → st.serial = 0 →
       (UefiBridge.NtfsMountVolume eng st).1 =
         (match eng.mountErr with
          | .corrupt => .volumeCorrupted
          | .locked => .accessDenied
          | .noPrivilege => .accessDenied
          | .outOfMemory => .outOfResources
          | .other => .notFound)) ∧
    (eng.mountRes = none → st.serial ≠ 0 →
       (UefiBridge.NtfsMountVolume eng st).1 = .noMedia) ∧
    (∀ vid vserial vlabel, eng.mountRes = some (vid, vserial, vlabel) →
       st.serial ≠ 0 → vserial ≠ st.serial →
       (UefiBridge.NtfsMountVolume eng st).1 = .mediaChanged) := by
  refine ⟨fun hres hser => ?_, fun hres hser => ?_, fun vid vserial vlabel hres hser hne => ?_⟩ <;>
    · unfold UefiBridge.NtfsMountVolume
      simp [hmc, hconv, hres, hser, *]

/-- Witness for C6_mount_failure_mapping: fresh volume (serial 0),
corrupt-classified mount failure. -/
theorem C6_mount_failure_mapping_witness :
    (({ convOk := true, convErrStatus := .noMapping, mountRes := none,
        mountErr := .corrupt } : MountEngine).mountRes = none →
       ({ mountCount := 0, totalRefCount := 0, serial := 0, label := none, volume := none,
          inFsList := false, lookupList := [], engineMounts := 0 } : VolState).serial = 0 →
       (UefiBridge.NtfsMountVolume
           { convOk := true, convErrStatus := .noMapping, mountRes := none, mountErr := .corrupt }
           { mountCount := 0, totalRefCount := 0, serial := 0, label := none, volume := none,
             inFsList := false, lookupList := [], engineMounts := 0 }).1 =
         (match ({ convOk := true, convErrStatus := .noMapping, mountRes := none,
                   mountErr := .corrupt } : MountEngine).mountErr with
          | .corrupt => .volumeCorrupted
          | .locked => .accessDenied
          | .noPrivilege => .accessDenied
          | .outOfMemory => .outOfResources
          | .other => .notFound)) ∧
    (({ convOk := true, convErrStatus := .noMapping, mountRes := none,
        mountErr := .corrupt } : MountEngine).mountRes = none →
       ({ mountCount := 0, totalRefCount := 0, serial := 0, label := none, volume := none,
          inFsList := false, lookupList := [], engineMounts := 0 } : VolState).serial ≠ 0 →
       (UefiBridge.NtfsMountVolume
           { convOk := true, convErrStatus := .noMapping, mountRes := none, mountErr := .corrupt }
           { mountCount := 0, totalRefCount := 0, serial := 0, label := none, volume := none,
             inFsList := false, lookupList := [], engineMounts := 0 }).1 = .noMedia) ∧
    (∀ vid vserial vlabel,
       ({ convOk := true, convErrStatus := .noMapping, mountRes := none,
          mountErr := .corrupt } : MountEngine).mountRes = some (vid, vserial, vlabel) →
       ({ mountCount := 0, totalRefCount := 0, serial := 0, label := none, volume := none,
          inFsList := false, lookupList := [], engineMounts := 0 } : VolState).serial ≠ 0 →
       vserial ≠ 0 →
       (UefiBridge.NtfsMountVolume
           { convOk := true, convErrStatus := .noMapping, mountRes := none, mountErr := .corrupt }
           { mountCount := 0, totalRefCount := 0, serial := 0, label := none, volume := none,
             inFsList := false, lookupList := [], engineMounts := 0 }).1 = .mediaChanged) :=
  C6_mount_failure_mapping
    { convOk := true, convErrStatus := .noMapping, mountRes := none, mountErr := .corrupt }
    { mountCount := 0, totalRefCount := 0, serial := 0, label := none, volume := none,
      inFsList := false, lookupList := [], engineMounts := 0 }
    rfl rfl

/-- The counting pass accumulates the number of kept entries. -/
theorem countPass_fold_fst (l : List UefiFile.DirEnt) :
    ∀ acc : Nat × Nat, (l.foldl UefiFile.DirHookCount acc).1 =
      acc.1 + (l.filter UefiFile.keepEnt).length := by
  induction l with
  | nil => intro acc; simp
  | cons e t ih =>
    intro acc
    rcases hk : UefiFile.keepEnt e with _ | _ <;>
      simp [UefiFile.DirHookCount, hk, ih] <;> omega

/-- The counting pass never lowers the size accumulator. -/
theorem countPass_fold_snd_mono (l : List UefiFile.DirEnt) :
    ∀ acc : Nat × Nat, acc.2 ≤ (l.foldl UefiFile.DirHookCount acc).2 := by
  induction l with
  | nil => intro acc; simp
  | cons e t ih =>
    intro acc
    rcases hk : UefiFile.keepEnt e with _ | _
    · simpa [UefiFile.DirHookCount, hk] using ih acc
    · calc acc.2 ≤ max acc.2 (UefiFile.entByteSize e) := Nat.le_max_left _ _
        _ ≤ _ := by simpa [UefiFile.DirHookCount, hk] using ih (acc.1 + 1, max acc.2 (UefiFile.entByteSize e))

/-- Every kept entry's serialized size is bounded by the counting pass's
final `DirEntrySize`. -/
theorem entByteSize_le_countPass (entries : List UefiFile.DirEnt) :
    ∀ e ∈ entries, UefiFile.keepEnt e = true →
      UefiFile.entByteSize e ≤ (UefiFile.countPass entries).2 := by
  unfold UefiFile.countPass
  generalize (0, 0) = acc
  induction entries generalizing acc with
  | nil => intro e he; cases he
  | cons a t ih =>
    intro e he hk
    rcases List.mem_cons.mp he with rfl | ht
    · calc UefiFile.entByteSize e ≤ (UefiFile.DirHookCount acc e).2 := by
            simp [UefiFile.DirHookCount, hk]
        _ ≤ _ := by simpa using countPass_fold_snd_mono t (UefiFile.DirHookCount acc e)
    · simpa using ih (UefiFile.DirHookCount acc a) e ht hk

/-- The filling pass succeeds and produces exactly the kept entries'
records, in enumeration order, whenever the size bound holds, the
info queries succeed, and the count budget is respected. -/
theorem dirHookCache_spec (g : Nat → Bool → Option Nat) (count entrySize : Nat) :
    ∀ (l : List UefiFile.DirEnt) (pos : Nat),
      (∀ e ∈ l, UefiFile.keepEnt e = true → UefiFile.entByteSize e ≤ entrySize) →
      (∀ e ∈ l, UefiFile.keepEnt e = true → (g e.mref (decide (e.dtType = 4))).isSome) →
      pos + (l.filter UefiFile.keepEnt).length ≤ count →
      UefiFile.DirHookCache g count entrySize l pos =
        some ((l.filter UefiFile.keepEnt).map (UefiFile.cacheRecord g)) := by
  intro l
  induction l with
  | nil => intro pos _ _ _; rfl
  | cons e t ih =>
    intro pos hsz hinfo hcnt
    rcases hk : UefiFile.keepEnt e with _ | _
    · rw [UefiFile.DirHookCache, if_pos (by rw [hk])]
      rw [List.filter_cons_of_neg (by simp [hk])] at hcnt ⊢
      exact ih pos (fun x hx => hsz x (List.mem_cons_of_mem e hx))
        (fun x hx => hinfo x (List.mem_cons_of_mem e hx)) hcnt
    · rw [UefiFile.DirHookCache, if_neg (by simp [hk])]
      rw [List.filter_cons_of_pos (by simp [hk])] at hcnt ⊢
      have hpos : ¬ count ≤ pos := by
        simp only [List.length_cons] at hcnt; omega
      rw [if_neg hpos]
      have hle : ¬ entrySize < UefiFile.entByteSize e :=
        Nat.not_lt.mpr (hsz e (List.mem_cons_self e t) hk)
      rw [if_neg hle]
      obtain ⟨payload, hpay⟩ :=
        Option.isSome_iff_exists.mp (hinfo e (List.mem_cons_self e t) hk)
      rw [hpay]
      rw [ih (pos + 1) (fun x hx => hsz x (List.mem_cons_of_mem e hx))
            (fun x hx => hinfo x (List.mem_cons_of_mem e hx))
            (by simp only [List.length_cons] at hcnt; omega)]
      simp [UefiFile.cacheRecord, hpay]

/-- C8: for a directory whose engine enumeration yields `entries` (with
all metadata queries succeeding) the two-pass cache build succeeds and
materializes exactly the kept entries, in enumeration order; the build is
a function of the enumeration alone, so rebuilding an unmodified
directory yields the same records in the same order; after a cursor
reset, the read at cursor i < count returns record i with success and
advances the cursor, and every read at cursor ≥ count is a successful
zero-length read (never an error), provided the caller's buffer holds
any kept record. -/
theorem C8_dir_cache_reads (g : Nat → Bool → Option Nat)
    (entries : List UefiFile.DirEnt) (bufLen : Nat)
    (hinfo : ∀ e ∈ entries, UefiFile.keepEnt e = true →
      (g e.mref (decide (e.dtType = 4))).isSome)
    (hbuf : ∀ e ∈ entries, UefiFile.keepEnt e = true →
      UefiFile.entByteSize e ≤ bufLen) :
    UefiFile.FileReadDirCache g entries =
      some ((entries.filter UefiFile.keepEnt).map (UefiFile.cacheRecord g),
            (entries.filter UefiFile.keepEnt).length,
            (UefiFile.countPass entries).2) ∧
    (∀ cache2 count2 stride2,
       UefiFile.FileReadDirCache g entries = some (cache2, count2, stride2) →
       cache2 = (entries.filter UefiFile.keepEnt).map (UefiFile.cacheRecord g) ∧
       count2 = (entries.filter UefiFile.keepEnt).length) ∧
    (∀ i rec,
       ((entries.filter UefiFile.keepEnt).map (UefiFile.cacheRecord g))[i]? = some rec →
       UefiFile.FileReturnDirEntry
           ((entries.filter UefiFile.keepEnt).map (UefiFile.cacheRecord g))
           (entries.filter UefiFile.keepEnt).length i bufLen =
         (.success, rec.size, i + 1, some rec)) ∧
    (∀ pos, (entries.filter UefiFile.keepEnt).length ≤ pos →
       UefiFile.FileReturnDirEntry
           ((entries.filter UefiFile.keepEnt).map (UefiFile.cacheRecord g))
           (entries.filter UefiFile.keepEnt).length pos bufLen =
         (.success, 0, pos, none)) := by
  have hbuild : UefiFile.FileReadDirCache g entries =
      some ((entries.filter UefiFile.keepEnt).map (UefiFile.cacheRecord g),
            (entries.filter UefiFile.keepEnt).length,
            (UefiFile.countPass entries).2) := by
    unfold UefiFile.FileReadDirCache
    have hcn : (UefiFile.countPass entries).1 = (entries.filter UefiFile.keepEnt).length := by
      simpa using countPass_fold_fst entries (0, 0)
    rw [dirHookCache_spec g (UefiFile.countPass entries).1 (UefiFile.countPass entries).2
          entries 0 (fun e he hk => entByteSize_le_countPass entries e he hk)
          hinfo (by rw [hcn]; omega)]
    rw [hcn]
  refine ⟨hbuild, ?_, ?_, ?_⟩
  · intro cache2 count2 stride2 h2
    rw [hbuild] at h2
    have := Option.some.inj h2
    exact ⟨(congrArg Prod.fst this).symm,
           (congrArg Prod.fst (congrArg Prod.snd this)).symm⟩
  · intro i rec hrec
    have hlt : i < ((entries.filter UefiFile.keepEnt).map (UefiFile.cacheRecord g)).length := by
      exact (List.getElem?_eq_some.mp hrec).1
    have hmem : rec ∈ (entries.filter UefiFile.keepEnt).map (UefiFile.cacheRecord g) :=
      List.getElem?_mem hrec
    have hszr : rec.size ≤ bufLen := by
      obtain ⟨e, hef, rfl⟩ := List.mem_map.mp hmem
      have := List.mem_filter.mp hef
      exact hbuf e this.1 this.2
    unfold UefiFile.FileReturnDirEntry
    rw [if_neg (by simp only [List.length_map] at hlt; omega)]
    rw [hrec]
    simp only [Option.getD_some]
    rw [if_neg (Nat.not_lt.mpr hszr)]
  · intro pos hpos
    unfold UefiFile.FileReturnDirEntry
    rw [if_pos hpos]

/-- Witness for C8_dir_cache_reads: a three-entry enumeration (one
system entry filtered out) with a constant info oracle. -/
theorem C8_dir_cache_reads_witness :
    UefiFile.FileReadDirCache (fun _ _ => some 7)
        [⟨[1, 2], 16, 4⟩, ⟨[], 3, 0⟩, ⟨[9], 77, 0⟩] =
      some ((([⟨[1, 2], 16, 4⟩, ⟨[], 3, 0⟩, ⟨[9], 77, 0⟩] :
                List UefiFile.DirEnt).filter UefiFile.keepEnt).map
              (UefiFile.cacheRecord (fun _ _ => some 7)),
            (([⟨[1, 2], 16, 4⟩, ⟨[], 3, 0⟩, ⟨[9], 77, 0⟩] :
                List UefiFile.DirEnt).filter UefiFile.keepEnt).length,
            (UefiFile.countPass [⟨[1, 2], 16, 4⟩, ⟨[], 3, 0⟩, ⟨[9], 77, 0⟩]).2) ∧
    (∀ cache2 count2 stride2,
       UefiFile.FileReadDirCache (fun _ _ => some 7)
           [⟨[1, 2], 16, 4⟩, ⟨[], 3, 0⟩, ⟨[9], 77, 0⟩] = some (cache2, count2, stride2) →
       cache2 = (([⟨[1, 2], 16, 4⟩, ⟨[], 3, 0⟩, ⟨[9], 77, 0⟩] :
                   List UefiFile.DirEnt).filter UefiFile.keepEnt).map
                  (UefiFile.cacheRecord (fun _ _ => some 7)) ∧
       count2 = (([⟨[1, 2], 16, 4⟩, ⟨[], 3, 0⟩, ⟨[9], 77, 0⟩] :
                   List UefiFile.DirEnt).filter UefiFile.keepEnt).length) ∧
    (∀ i rec,
       ((([⟨[1, 2], 16, 4⟩, ⟨[], 3, 0⟩, ⟨[9], 77, 0⟩] :
             List UefiFile.DirEnt).filter UefiFile.keepEnt).map
           (UefiFile.cacheRecord (fun _ _ => some 7)))[i]? = some rec →
       UefiFile.FileReturnDirEntry
           ((([⟨[1, 2], 16, 4⟩, ⟨[], 3, 0⟩, ⟨[9], 77, 0⟩] :
                List UefiFile.DirEnt).filter UefiFile.keepEnt).map
              (UefiFile.cacheRecord (fun _ _ => some 7)))
           (([⟨[1, 2], 16, 4⟩, ⟨[], 3, 0⟩, ⟨[9], 77, 0⟩] :
               List UefiFile.DirEnt).filter UefiFile.keepEnt).length i 200 =
         (.success, rec.size, i + 1, some rec)) ∧
    (∀ pos,
       (([⟨[1, 2], 16, 4⟩, ⟨[], 3, 0⟩, ⟨[9], 77, 0⟩] :
           List UefiFile.DirEnt).filter UefiFile.keepEnt).length ≤ pos →
       UefiFile.FileReturnDirEntry
           ((([⟨[1, 2], 16, 4⟩, ⟨[], 3, 0⟩, ⟨[9], 77, 0⟩] :
                List UefiFile.DirEnt).filter UefiFile.keepEnt).map
              (UefiFile.cacheRecord (fun _ _ => some 7)))
           (([⟨[1, 2], 16, 4⟩, ⟨[], 3, 0⟩, ⟨[9], 77, 0⟩] :
               List UefiFile.DirEnt).filter UefiFile.keepEnt).length pos 200 =
         (.success, 0, pos, none)) :=
  C8_dir_cache_reads (fun _ _ => some 7)
    [⟨[1, 2], 16, 4⟩, ⟨[], 3, 0⟩, ⟨[9], 77, 0⟩] 200
    (by decide) (by decide)

/-- `lookupMatches` only depends on the probed entry's heap record. -/
theorem lookupMatches_congr (st st2 : FsState) (path : List Nat) (inum x : Nat)
    (h : st2.files x = st.files x) :
    Bridge.lookupMatches st2 path inum x = Bridge.lookupMatches st path inum x := by
  unfold Bridge.lookupMatches
  rw [h]

/-- `parentMatches` only depends on the probed entry's heap record (and
is false on the probe file itself in any state). -/
theorem parentMatches_congr (st st2 : FsState) (fid : Nat) (d : List Nat) (x : Nat)
    (h : x ≠ fid → st2.files x = st.files x) :
    Bridge.parentMatches st2 fid d x = Bridge.parentMatches st fid d x := by
  unfold Bridge.parentMatches
  by_cases hx : x = fid
  · simp [hx]
  · simp only [if_neg hx]
    rw [h hx]

/-- Freeing a ref-free file clears its heap slot and nothing else. -/
theorem freeFile_proj (st : FsState) (fid : Nat) (f0 : FileRec)
    (hf0 : st.files fid = some f0) (hrc : f0.refCount ≤ 0) :
    (Bridge.NtfsFreeFile st fid).files fid = none ∧
    (Bridge.NtfsFreeFile st fid).lookup = st.lookup ∧
    (Bridge.NtfsFreeFile st fid).totalRefCount = st.totalRefCount ∧
    (∀ g2, g2 ≠ fid → (Bridge.NtfsFreeFile st fid).files g2 = st.files g2) := by
  refine ⟨?_, ?_, ?_, fun g2 hg2 => ?_⟩
  · simp [Bridge.NtfsFreeFile, hf0, hrc]
  · simp [Bridge.NtfsFreeFile, hf0, hrc]
  · simp [Bridge.NtfsFreeFile, hf0, hrc]
  · simp [Bridge.NtfsFreeFile, hf0, hrc, hg2]

/-- C1: a second Open of a path that still has a registered handle
merges into it: the open returns success and the already-registered id,
the existing handle's reference count (and the volume's total) is
incremented, the freshly allocated shell is freed again, no engine
open/resolve call happens, the registry is unchanged and no other file
is touched. -/
theorem C1_second_open_reuses_instance
    (eng : Engine) (st : FsState) (P : List Nat) (fid : Nat) (f : FileRec)
    (hlk : Bridge.NtfsLookup st P 0 = some fid)
    (hf : st.files fid = some f)
    (hfresh : st.files st.nextId = none)
    (hfreshl : st.nextId ∉ st.lookup) :
    (UefiFile.FileOpenPath eng st P).1 = .success ∧
    (UefiFile.FileOpenPath eng st P).2.2 = some fid ∧
    (UefiFile.FileOpenPath eng st P).2.1.files fid =
      some { f with refCount := f.refCount + 1 } ∧
    (UefiFile.FileOpenPath eng st P).2.1.engineOpens = st.engineOpens ∧
    (UefiFile.FileOpenPath eng st P).2.1.files st.nextId = none ∧
    (UefiFile.FileOpenPath eng st P).2.1.lookup = st.lookup ∧
    (UefiFile.FileOpenPath eng st P).2.1.totalRefCount = st.totalRefCount + 1 ∧
    (∀ g2, g2 ≠ fid → g2 ≠ st.nextId →
      (UefiFile.FileOpenPath eng st P).2.1.files g2 = st.files g2) := by
  have hne : fid ≠ st.nextId := by
    intro h
    rw [h, hfresh] at hf
    exact Option.noConfusion hf
  obtain ⟨st1, hst1⟩ : ∃ s : FsState, s =
      { st with
          files := fun n => if n = st.nextId then
              some { path := P, refCount := 0, isRoot := false, isDir := false, inode := none }
            else st.files n,
          nextId := st.nextId + 1 } := ⟨_, rfl⟩
  have hf1 : st1.files st.nextId =
      some { path := P, refCount := 0, isRoot := false, isDir := false, inode := none } := by
    rw [hst1]
    simp
  have hff : st1.files fid = some f := by
    rw [hst1]
    simp [hne, hf]
  have hlkup : st1.lookup = st.lookup := by rw [hst1]
  have hlk1 : Bridge.NtfsLookup st1 P 0 = some fid := by
    unfold Bridge.NtfsLookup at hlk ⊢
    rw [hlkup, findScanCongr st.lookup fun x hx =>
      lookupMatches_congr st st1 P 0 x (by
        have hxne : x ≠ st.nextId := fun h => hfreshl (h ▸ hx)
        simp [hst1, hxne])]
    exact hlk
  have halloc : Bridge.NtfsAllocateFile st P = (st1, st.nextId) := by
    rw [hst1]
    rfl
  have hopen : Bridge.NtfsOpenFile eng st1 st.nextId =
      (.success, Bridge.NtfsFreeFile st1 st.nextId, fid) := by
    simp only [Bridge.NtfsOpenFile, hf1, hlk1]
  have hfreeEq : Bridge.NtfsFreeFile st1 st.nextId =
      { st1 with files := fun n => if n = st.nextId then none else st1.files n } := by
    simp [Bridge.NtfsFreeFile, hf1]
  have hfF : (Bridge.NtfsFreeFile st1 st.nextId).files fid = some f := by
    rw [hfreeEq]
    simp [hne, hff]
  have hmain : UefiFile.FileOpenPath eng st P =
      (.success,
       { (Bridge.setF (Bridge.NtfsFreeFile st1 st.nextId) fid
            { f with refCount := f.refCount + 1 }) with
           totalRefCount := (Bridge.NtfsFreeFile st1 st.nextId).totalRefCount + 1 },
       some fid) := by
    simp only [UefiFile.FileOpenPath, halloc, hopen, hfF]
  rw [hmain]
  refine ⟨rfl, rfl, ?_, ?_, ?_, ?_, ?_, fun g2 hg1 hg2 => ?_⟩
  · simp [Bridge.setF]
  · rw [hfreeEq]
    simp [Bridge.setF, hst1]
  · rw [hfreeEq]
    simp [Bridge.setF, hne.symm, hst1]
  · rw [hfreeEq]
    simp [Bridge.setF, hst1]
  · rw [hfreeEq]
    simp [Bridge.setF, hst1]
  · rw [hfreeEq]
    simp [Bridge.setF, hst1, hg1, hg2]

/-- Witness for C1_second_open_reuses_instance: one registered handle
for path "/3" with refCount 1; reopening "/3". -/
theorem C1_second_open_reuses_instance_witness :
    (UefiFile.FileOpenPath
        { canOpen := fun _ => true, resolve := fun _ _ => some 17, nodeIsDir := fun _ => false,
          deleteOk := fun _ => true, readOnly := false, errStatus := .notFound }
        { files := fun n => if n = 0 then
              some { path := [3], refCount := 1, isRoot := false, isDir := false,
                     inode := some { mftNo := 17, gen := 0, dirty := false } }
            else none,
          nextId := 1, lookup := [0], totalRefCount := 1, mountCount := 1, label := none,
          inFsList := true, openGen := 1, engineOpens := 1, engineDeletes := 0, logErrors := 0 }
        [3]).1 = .success ∧
    (UefiFile.FileOpenPath
        { canOpen := fun _ => true, resolve := fun _ _ => some 17, nodeIsDir := fun _ => false,
          deleteOk := fun _ => true, readOnly := false, errStatus := .notFound }
        { files := fun n => if n = 0 then
              some { path := [3], refCount := 1, isRoot := false, isDir := false,
                     inode := some { mftNo := 17, gen := 0, dirty := false } }
            else none,
          nextId := 1, lookup := [0], totalRefCount := 1, mountCount := 1, label := none,
          inFsList := true, openGen := 1, engineOpens := 1, engineDeletes := 0, logErrors := 0 }
        [3]).2.2 = some 0 ∧
    (UefiFile.FileOpenPath
        { canOpen := fun _ => true, resolve := fun _ _ => some 17, nodeIsDir := fun _ => false,
          deleteOk := fun _ => true, readOnly := false, errStatus := .notFound }
        { files := fun n => if n = 0 then
              some { path := [3], refCount := 1, isRoot := false, isDir := false,
                     inode := some { mftNo := 17, gen := 0, dirty := false } }
            else none,
          nextId := 1, lookup := [0], totalRefCount := 1, mountCount := 1, label := none,
          inFsList := true, openGen := 1, engineOpens := 1, engineDeletes := 0, logErrors := 0 }
        [3]).2.1.files 0 =
      some { ({ path := [3], refCount := 1, isRoot := false, isDir := false,
                inode := some { mftNo := 17, gen := 0, dirty := false } } : FileRec) with
               refCount :=
                 ({ path := [3], refCount := 1, isRoot := false, isDir := false,
                    inode := some { mftNo := 17, gen := 0, dirty := false } } :
                      FileRec).refCount + 1 } ∧
    (UefiFile.FileOpenPath
        { canOpen := fun _ => true, resolve := fun _ _ => some 17, nodeIsDir := fun _ => false,
          deleteOk := fun _ => true, readOnly := false, errStatus := .notFound }
        { files := fun n => if n = 0 then
              some { path := [3], refCount := 1, isRoot := false, isDir := false,
                     inode := some { mftNo := 17, gen := 0, dirty := false } }
            else none,
          nextId := 1, lookup := [0], totalRefCount := 1, mountCount := 1, label := none,
          inFsList := true, openGen := 1, engineOpens := 1, engineDeletes := 0, logErrors := 0 }
        [3]).2.1.engineOpens =
      ({ files := fun n => if n = 0 then
             some { path := [3], refCount := 1, isRoot := false, isDir := false,
                    inode := some { mftNo := 17, gen := 0, dirty := false } }
           else none,
         nextId := 1, lookup := [0], totalRefCount := 1, mountCount := 1, label := none,
         inFsList := true, openGen := 1, engineOpens := 1, engineDeletes := 0,
         logErrors := 0 } : FsState).engineOpens ∧
    (UefiFile.FileOpenPath
        { canOpen := fun _ => true, resolve := fun _ _ => some 17, nodeIsDir := fun _ => false,
          deleteOk := fun _ => true, readOnly := false, errStatus := .notFound }
        { files := fun n => if n = 0 then
              some { path := [3], refCount := 1, isRoot := false, isDir := false,
                     inode := some { mftNo := 17, gen := 0, dirty := false } }
            else none,
          nextId := 1, lookup := [0], totalRefCount := 1, mountCount := 1, label := none,
          inFsList := true, openGen := 1, engineOpens := 1, engineDeletes := 0, logErrors := 0 }
        [3]).2.1.files 1 = none ∧
    (UefiFile.FileOpenPath
        { canOpen := fun _ => true, resolve := fun _ _ => some 17, nodeIsDir := fun _ => false,
          deleteOk := fun _ => true, readOnly := false, errStatus := .notFound }
        { files := fun n => if n = 0 then
              some { path := [3], refCount := 1, isRoot := false, isDir := false,
                     inode := some { mftNo := 17, gen := 0, dirty := false } }
            else none,
          nextId := 1, lookup := [0], totalRefCount := 1, mountCount := 1, label := none,
          inFsList := true, openGen := 1, engineOpens := 1, engineDeletes := 0, logErrors := 0 }
        [3]).2.1.lookup = [0] ∧
    (UefiFile.FileOpenPath
        { canOpen := fun _ => true, resolve := fun _ _ => some 17, nodeIsDir := fun _ => false,
          deleteOk := fun _ => true, readOnly := false, errStatus := .notFound }
        { files := fun n => if n = 0 then
              some { path := [3], refCount := 1, isRoot := false, isDir := false,
                     inode := some { mftNo := 17, gen := 0, dirty := false } }
            else none,
          nextId := 1, lookup := [0], totalRefCount := 1, mountCount := 1, label := none,
          inFsList := true, openGen := 1, engineOpens := 1, engineDeletes := 0, logErrors := 0 }
        [3]).2.1.totalRefCount = 1 + 1 ∧
    (∀ g2, g2 ≠ 0 → g2 ≠ 1 →
      (UefiFile.FileOpenPath
          { canOpen := fun _ => true, resolve := fun _ _ => some 17, nodeIsDir := fun _ => false,
            deleteOk := fun _ => true, readOnly := false, errStatus := .notFound }
          { files := fun n => if n = 0 then
                some { path := [3], refCount := 1, isRoot := false, isDir := false,
                       inode := some { mftNo := 17, gen := 0, dirty := false } }
              else none,
            nextId := 1, lookup := [0], totalRefCount := 1, mountCount := 1, label := none,
            inFsList := true, openGen := 1, engineOpens := 1, engineDeletes := 0, logErrors := 0 }
          [3]).2.1.files g2 =
        (if g2 = 0 then
            some { path := [3], refCount := 1, isRoot := false, isDir := false,
                   inode := some { mftNo := 17, gen := 0, dirty := false } }
          else none)) :=
  C1_second_open_reuses_instance
    { canOpen := fun _ => true, resolve := fun _ _ => some 17, nodeIsDir := fun _ => false,
      deleteOk := fun _ => true, readOnly := false, errStatus := .notFound }
    { files := fun n => if n = 0 then
          some { path := [3], refCount := 1, isRoot := false, isDir := false,
                 inode := some { mftNo := 17, gen := 0, dirty := false } }
        else none,
      nextId := 1, lookup := [0], totalRefCount := 1, mountCount := 1, label := none,
      inFsList := true, openGen := 1, engineOpens := 1, engineDeletes := 0, logErrors := 0 }
    [3] 0
    { path := [3], refCount := 1, isRoot := false, isDir := false,
      inode := some { mftNo := 17, gen := 0, dirty := false } }
    (by decide) rfl rfl (by decide)

/-- C5: a Delete on a handle holding two references reports the soft
warnDeleteFailure, only drops one reference, and performs no engine
delete call; conversely, any Delete call that does invoke the engine
delete primitive was issued on a handle whose reference count was 1,
i.e. its last reference. -/
theorem C5_delete_needs_last_reference
    (eng : Engine) (st : FsState) (fid : Nat) (f : FileRec)
    (hf : st.files fid = some f) :
    (f.refCount = 2 → f.isRoot = false → f.inode ≠ none →
       (UefiFile.FileDelete eng st fid).1 = .warnDeleteFailure ∧
       (UefiFile.FileDelete eng st fid).2.engineDeletes = st.engineDeletes ∧
       (UefiFile.FileDelete eng st fid).2.files fid =
         some { f with refCount := f.refCount - 1 }) ∧
    (1 ≤ f.refCount →
       (UefiFile.FileDelete eng st fid).2.engineDeletes ≠ st.engineDeletes →
       f.refCount = 1) := by
  constructor
  · intro h2 hroot hino
    refine ⟨?_, ?_, ?_⟩ <;>
      simp [UefiFile.FileDelete, hf, hroot, hino, h2, Bridge.setF]
  · intro hge hdiff
    by_contra h1
    have h2 : (0 : Int) < f.refCount - 1 := by omega
    apply hdiff
    simp only [UefiFile.FileDelete, hf]
    rcases hr : f.isRoot with _ | _
    · cases hv : f.inode with
      | none => simp [hr, hv]
      | some i => simp [hr, hv, h2, Bridge.setF]
    · simp [hr]

/-- Witness for C5_delete_needs_last_reference: a handle with two
references on a writable volume. -/
theorem C5_delete_needs_last_reference_witness :
    ((({ path := [4, 5], refCount := 2, isRoot := false, isDir := false,
         inode := some { mftNo := 21, gen := 0, dirty := false } } : FileRec).refCount = 2 →
       ({ path := [4, 5], refCount := 2, isRoot := false, isDir := false,
          inode := some { mftNo := 21, gen := 0, dirty := false } } : FileRec).isRoot = false →
       ({ path := [4, 5], refCount := 2, isRoot := false, isDir := false,
          inode := some { mftNo := 21, gen := 0, dirty := false } } : FileRec).inode ≠ none →
       (UefiFile.FileDelete
           { canOpen := fun _ => true, resolve := fun _ _ => none, nodeIsDir := fun _ => false,
             deleteOk := fun _ => true, readOnly := false, errStatus := .notFound }
           { files := fun n => if n = 0 then
                 some { path := [4, 5], refCount := 2, isRoot := false, isDir := false,
                        inode := some { mftNo := 21, gen := 0, dirty := false } }
               else none,
             nextId := 1, lookup := [0], totalRefCount := 2, mountCount := 1, label := none,
             inFsList := true, openGen := 1, engineOpens := 1, engineDeletes := 0,
             logErrors := 0 } 0).1 = .warnDeleteFailure ∧
       (UefiFile.FileDelete
           { canOpen := fun _ => true, resolve := fun _ _ => none, nodeIsDir := fun _ => false,
             deleteOk := fun _ => true, readOnly := false, errStatus := .notFound }
           { files := fun n => if n = 0 then
                 some { path := [4, 5], refCount := 2, isRoot := false, isDir := false,
                        inode := some { mftNo := 21, gen := 0, dirty := false } }
               else none,
             nextId := 1, lookup := [0], totalRefCount := 2, mountCount := 1, label := none,
             inFsList := true, openGen := 1, engineOpens := 1, engineDeletes := 0,
             logErrors := 0 } 0).2.engineDeletes = 0 ∧
       (UefiFile.FileDelete
           { canOpen := fun _ => true, resolve := fun _ _ => none, nodeIsDir := fun _ => false,
             deleteOk := fun _ => true, readOnly := false, errStatus := .notFound }
           { files := fun n => if n = 0 then
                 some { path := [4, 5], refCount := 2, isRoot := false, isDir := false,
                        inode := some { mftNo := 21, gen := 0, dirty := false } }
               else none,
             nextId := 1, lookup := [0], totalRefCount := 2, mountCount := 1, label := none,
             inFsList := true, openGen := 1, engineOpens := 1, engineDeletes := 0,
             logErrors := 0 } 0).2.files 0 =
         some { ({ path := [4, 5], refCount := 2, isRoot := false, isDir := false,
                   inode := some { mftNo := 21, gen := 0, dirty := false } } : FileRec) with
                  refCount :=
                    ({ path := [4, 5], refCount := 2, isRoot := false, isDir := false,
                       inode := some { mftNo := 21, gen := 0, dirty := false } } :
                         FileRec).refCount - 1 }) ∧
     (1 ≤ ({ path := [4, 5], refCount := 2, isRoot := false, isDir := false,
             inode := some { mftNo := 21, gen := 0, dirty := false } } : FileRec).refCount →
       (UefiFile.FileDelete
           { canOpen := fun _ => true, resolve := fun _ _ => none, nodeIsDir := fun _ => false,
             deleteOk := fun _ => true, readOnly := false, errStatus := .notFound }
           { files := fun n => if n = 0 then
                 some { path := [4, 5], refCount := 2, isRoot := false, isDir := false,
                        inode := some { mftNo := 21, gen := 0, dirty := false } }
               else none,
             nextId := 1, lookup := [0], totalRefCount := 2, mountCount := 1, label := none,
             inFsList := true, openGen := 1, engineOpens := 1, engineDeletes := 0,
             logErrors := 0 } 0).2.engineDeletes ≠ 0 →
       ({ path := [4, 5], refCount := 2, isRoot := false, isDir := false,
          inode := some { mftNo := 21, gen := 0, dirty := false } } : FileRec).refCount = 1)) :=
  C5_delete_needs_last_reference
    { canOpen := fun _ => true, resolve := fun _ _ => none, nodeIsDir := fun _ => false,
      deleteOk := fun _ => true, readOnly := false, errStatus := .notFound }
    { files := fun n => if n = 0 then
          some { path := [4, 5], refCount := 2, isRoot := false, isDir := false,
                 inode := some { mftNo := 21, gen := 0, dirty := false } }
        else none,
      nextId := 1, lookup := [0], totalRefCount := 2, mountCount := 1, label := none,
      inFsList := true, openGen := 1, engineOpens := 1, engineDeletes := 0, logErrors := 0 } 0
    { path := [4, 5], refCount := 2, isRoot := false, isDir := false,
      inode := some { mftNo := 21, gen := 0, dirty := false } }
    rfl

/-- C3 (code contradicts its own contract): the FileDelete comment says
it "can only ever return EFI_SUCCESS or EFI_WARN_DELETE_FAILURE", and
the claim repeats that, but (a) a Delete on the root handle returns the
hard error EFI_ACCESS_DENIED, and (b) a Delete whose engine delete
succeeds but whose parent reopen then fails returns the hard translated
errno status (here EFI_NOT_FOUND) from NtfsDeleteFile. -/
theorem C3_delete_returns_hard_errors :
    (UefiFile.FileDelete
        { canOpen := fun _ => true, resolve := fun _ _ => none, nodeIsDir := fun _ => true,
          deleteOk := fun _ => true, readOnly := false, errStatus := .notFound }
        { files := fun n => if n = 0 then
              some { path := [], refCount := 1, isRoot := true, isDir := true,
                     inode := some { mftNo := 5, gen := 0, dirty := false } }
            else none,
          nextId := 1, lookup := [0], totalRefCount := 1, mountCount := 1, label := none,
          inFsList := true, openGen := 1, engineOpens := 1, engineDeletes := 0,
          logErrors := 0 } 0).1 = EfiStatus.accessDenied ∧
    EfiStatus.accessDenied.isError = true ∧
    (UefiFile.FileDelete
        { canOpen := fun _ => false, resolve := fun _ _ => none, nodeIsDir := fun _ => false,
          deleteOk := fun _ => true, readOnly := false, errStatus := .notFound }
        { files := fun n => if n = 1 then
              some { path := [10, 11], refCount := 1, isRoot := false, isDir := false,
                     inode := some { mftNo := 30, gen := 0, dirty := false } }
            else if n = 2 then
              some { path := [10], refCount := 1, isRoot := false, isDir := true,
                     inode := some { mftNo := 19, gen := 1, dirty := false } }
            else none,
          nextId := 3, lookup := [1, 2], totalRefCount := 2, mountCount := 1, label := none,
          inFsList := true, openGen := 2, engineOpens := 2, engineDeletes := 0,
          logErrors := 0 } 1).1 = EfiStatus.notFound ∧
    EfiStatus.notFound.isError = true := by
  refine ⟨?_, rfl, ?_, rfl⟩ <;> decide

/-- C2: closing the last reference of a metadata-dirty handle whose
parent is registered cycles the parent's engine handle: the close
succeeds and fully completes (the handle is freed and unregistered);
when the reopen-by-recorded-number succeeds the parent stays registered
and its record is unchanged except for a freshly opened engine instance
of the same inode number; when the reopen fails the parent is
unregistered, its engine handle is gone, and the failure is reported
(error log grows) — but the close still completes.  (The hypothesis
`2 ≤ st.totalRefCount` says some other handle is still open, which holds
whenever a parent handle is registered.) -/
theorem C2_close_dirty_cycles_parent
    (eng : Engine) (st : FsState) (fid pid : Nat) (f p : FileRec) (fi pi : Inode)
    (hf : st.files fid = some f) (hrc : f.refCount = 1)
    (hino : f.inode = some fi) (hdirty : fi.dirty = true)
    (hpar : Bridge.NtfsLookupParent st fid = some pid)
    (hp : st.files pid = some p) (hpi : p.inode = some pi)
    (hnodup : st.lookup.Nodup) (htot : 2 ≤ st.totalRefCount) :
    (UefiFile.FileClose eng st fid).1 = .success ∧
    (UefiFile.FileClose eng st fid).2.files fid = none ∧
    fid ∉ (UefiFile.FileClose eng st fid).2.lookup ∧
    (eng.canOpen pi.mftNo = true →
       pid ∈ (UefiFile.FileClose eng st fid).2.lookup ∧
       (UefiFile.FileClose eng st fid).2.files pid =
         some { p with inode := some { mftNo := pi.mftNo, gen := st.openGen, dirty := false } }) ∧
    (eng.canOpen pi.mftNo = false →
       pid ∉ (UefiFile.FileClose eng st fid).2.lookup ∧
       (UefiFile.FileClose eng st fid).2.files pid = some { p with inode := none } ∧
       st.logErrors < (UefiFile.FileClose eng st fid).2.logErrors) := by
  have hparfind : st.lookup.find? (Bridge.parentMatches st fid f.path.dropLast) = some pid := by
    unfold Bridge.NtfsLookupParent at hpar
    rw [hf] at hpar
    exact hpar
  have hpid_mem : pid ∈ st.lookup := List.mem_of_find?_eq_some hparfind
  have hpid_true := List.find?_some hparfind
  have hpid_ne : pid ≠ fid := by
    intro h
    rw [h] at hpid_true
    simp [Bridge.parentMatches] at hpid_true
  obtain ⟨st1, hst1⟩ : ∃ s : FsState,
      s = Bridge.setF st fid { f with refCount := f.refCount - 1 } := ⟨_, rfl⟩
  have hff1 : st1.files fid = some { f with refCount := f.refCount - 1 } := by
    rw [hst1]
    simp [Bridge.setF]
  have hother1 : ∀ x, x ≠ fid → st1.files x = st.files x := by
    intro x hx
    rw [hst1]
    simp [Bridge.setF, hx]
  have hfp1 : st1.files pid = some p := by rw [hother1 pid hpid_ne, hp]
  have hlk1 : st1.lookup = st.lookup := by rw [hst1]; rfl
  have hgen1 : st1.openGen = st.openGen := by rw [hst1]; rfl
  have hlog1 : st1.logErrors = st.logErrors := by rw [hst1]; rfl
  have htot1 : st1.totalRefCount = st.totalRefCount := by rw [hst1]; rfl
  have hpar1 : Bridge.NtfsLookupParent st1 fid = some pid := by
    simp only [Bridge.NtfsLookupParent, hff1]
    rw [hlk1, findScanCongr st.lookup fun x hx =>
      parentMatches_congr st st1 fid f.path.dropLast x fun hxne => hother1 x hxne]
    exact hparfind
  have hrc0 : ({ f with refCount := f.refCount - 1 } : FileRec).refCount ≤ 0 := by
    simp [hrc]
  have hcond : f.refCount - 1 ≤ 0 := by omega
  rcases hcan : eng.canOpen pi.mftNo with _ | _
  · -- reopen fails
    have hopen : Bridge.engOpenInode eng st1 pi.mftNo =
        (none, { st1 with engineOpens := st1.engineOpens + 1 }) := by
      simp [Bridge.engOpenInode, hcan]
    have hfpB : ({ st1 with engineOpens := st1.engineOpens + 1 } : FsState).files pid = some p :=
      hfp1
    have hclose : Bridge.NtfsCloseFile eng st1 fid =
        Bridge.NtfsLookupRem
          (Bridge.NtfsLookupRem
            { (Bridge.setF { st1 with engineOpens := st1.engineOpens + 1 } pid
                 { p with inode := none }) with
                logErrors := ({ st1 with engineOpens := st1.engineOpens + 1 } :
                  FsState).logErrors + 1 } pid)
          fid := by
      simp [Bridge.NtfsCloseFile, hff1, hino, hdirty, hpar1, hfp1, hpi, hopen, hfpB]
    have hclF : ∀ x, x ≠ pid → (Bridge.NtfsCloseFile eng st1 fid).files x = st1.files x := by
      intro x hx
      rw [hclose]
      simp [Bridge.NtfsLookupRem, Bridge.setF, hx]
    have hclP : (Bridge.NtfsCloseFile eng st1 fid).files pid = some { p with inode := none } := by
      rw [hclose]
      simp [Bridge.NtfsLookupRem, Bridge.setF]
    have hclL : (Bridge.NtfsCloseFile eng st1 fid).lookup = (st.lookup.erase pid).erase fid := by
      rw [hclose]
      simp [Bridge.NtfsLookupRem, Bridge.setF, hlk1]
    have hclT : (Bridge.NtfsCloseFile eng st1 fid).totalRefCount = st.totalRefCount := by
      rw [hclose]
      simp [Bridge.NtfsLookupRem, Bridge.setF, htot1]
    have hclLog : (Bridge.NtfsCloseFile eng st1 fid).logErrors = st.logErrors + 1 := by
      rw [hclose]
      simp [Bridge.NtfsLookupRem, Bridge.setF, hlog1]
    have hclfid : (Bridge.NtfsCloseFile eng st1 fid).files fid =
        some { f with refCount := f.refCount - 1 } := by
      rw [hclF fid (Ne.symm hpid_ne), hff1]
    obtain ⟨st2, hst2⟩ : ∃ s : FsState,
        s = Bridge.NtfsFreeFile (Bridge.NtfsCloseFile eng st1 fid) fid := ⟨_, rfl⟩
    have hfree := freeFile_proj (Bridge.NtfsCloseFile eng st1 fid) fid
      { f with refCount := f.refCount - 1 } hclfid hrc0
    have h2fid : st2.files fid = none := by rw [hst2]; exact hfree.1
    have h2P : st2.files pid = some { p with inode := none } := by
      rw [hst2, hfree.2.2.2 pid hpid_ne, hclP]
    have h2L : st2.lookup = (st.lookup.erase pid).erase fid := by
      rw [hst2, hfree.2.1, hclL]
    have h2T : st2.totalRefCount = st.totalRefCount := by
      rw [hst2, hfree.2.2.1, hclT]
    have h2Log : st2.logErrors = st.logErrors + 1 := by
      rw [hst2]
      have : (Bridge.NtfsFreeFile (Bridge.NtfsCloseFile eng st1 fid) fid).logErrors =
          (Bridge.NtfsCloseFile eng st1 fid).logErrors := by
        simp [Bridge.NtfsFreeFile, hclfid, hrc0]
      rw [this, hclLog]
    have hmain : UefiFile.FileClose eng st fid =
        (.success, { st2 with totalRefCount := st2.totalRefCount - 1 }) := by
      simp only [UefiFile.FileClose, hf, ← hst1, if_pos hcond, ← hst2]
      rw [if_neg (show ¬ (st2.totalRefCount - 1 ≤ 0) from by rw [h2T]; omega)]
    rw [hmain]
    refine ⟨rfl, h2fid, ?_, ?_, fun _ => ⟨?_, h2P, ?_⟩⟩
    · rw [show ({ st2 with totalRefCount := st2.totalRefCount - 1 } : FsState).lookup =
          st2.lookup from rfl, h2L]
      exact (hnodup.erase pid).not_mem_erase
    · intro hcontra
      exact Bool.noConfusion hcontra
    · rw [show ({ st2 with totalRefCount := st2.totalRefCount - 1 } : FsState).lookup =
          st2.lookup from rfl, h2L]
      intro hmem
      exact hnodup.not_mem_erase (List.mem_of_mem_erase hmem)
    · rw [show ({ st2 with totalRefCount := st2.totalRefCount - 1 } : FsState).logErrors =
          st2.logErrors from rfl, h2Log]
      omega
  · -- reopen succeeds
    have hopen : Bridge.engOpenInode eng st1 pi.mftNo =
        (some { mftNo := pi.mftNo, gen := st1.openGen, dirty := false },
         { st1 with openGen := st1.openGen + 1, engineOpens := st1.engineOpens + 1 }) := by
      simp [Bridge.engOpenInode, hcan]
    have hfpA :
        ({ st1 with openGen := st1.openGen + 1, engineOpens := st1.engineOpens + 1 } :
          FsState).files pid = some p := hfp1
    have hclose : Bridge.NtfsCloseFile eng st1 fid =
        Bridge.NtfsLookupRem
          (Bridge.setF
            { st1 with openGen := st1.openGen + 1, engineOpens := st1.engineOpens + 1 } pid
            { p with inode := some { mftNo := pi.mftNo, gen := st1.openGen, dirty := false } })
          fid := by
      simp [Bridge.NtfsCloseFile, hff1, hino, hdirty, hpar1, hfp1, hpi, hopen, hfpA]
    have hclP : (Bridge.NtfsCloseFile eng st1 fid).files pid =
        some { p with inode := some { mftNo := pi.mftNo, gen := st.openGen, dirty := false } } := by
      rw [hclose, ← hgen1]
      simp [Bridge.NtfsLookupRem, Bridge.setF]
    have hclF : ∀ x, x ≠ pid → (Bridge.NtfsCloseFile eng st1 fid).files x = st1.files x := by
      intro x hx
      rw [hclose]
      simp [Bridge.NtfsLookupRem, Bridge.setF, hx]
    have hclL : (Bridge.NtfsCloseFile eng st1 fid).lookup = st.lookup.erase fid := by
      rw [hclose]
      simp [Bridge.NtfsLookupRem, Bridge.setF, hlk1]
    have hclT : (Bridge.NtfsCloseFile eng st1 fid).totalRefCount = st.totalRefCount := by
      rw [hclose]
      simp [Bridge.NtfsLookupRem, Bridge.setF, htot1]
    have hclfid : (Bridge.NtfsCloseFile eng st1 fid).files fid =
        some { f with refCount := f.refCount - 1 } := by
      rw [hclF fid (Ne.symm hpid_ne), hff1]
    obtain ⟨st2, hst2⟩ : ∃ s : FsState,
        s = Bridge.NtfsFreeFile (Bridge.NtfsCloseFile eng st1 fid) fid := ⟨_, rfl⟩
    have hfree := freeFile_proj (Bridge.NtfsCloseFile eng st1 fid) fid
      { f with refCount := f.refCount - 1 } hclfid hrc0
    have h2fid : st2.files fid = none := by rw [hst2]; exact hfree.1
    have h2P : st2.files pid =
        some { p with inode := some { mftNo := pi.mftNo, gen := st.openGen, dirty := false } } := by
      rw [hst2, hfree.2.2.2 pid hpid_ne, hclP]
    have h2L : st2.lookup = st.lookup.erase fid := by
      rw [hst2, hfree.2.1, hclL]
    have h2T : st2.totalRefCount = st.totalRefCount := by
      rw [hst2, hfree.2.2.1, hclT]
    have hmain : UefiFile.FileClose eng st fid =
        (.success, { st2 with totalRefCount := st2.totalRefCount - 1 }) := by
      simp only [UefiFile.FileClose, hf, ← hst1, if_pos hcond, ← hst2]
      rw [if_neg (show ¬ (st2.totalRefCount - 1 ≤ 0) from by rw [h2T]; omega)]
    rw [hmain]
    refine ⟨rfl, h2fid, ?_, fun _ => ⟨?_, h2P⟩, ?_⟩
    · rw [show ({ st2 with totalRefCount := st2.totalRefCount - 1 } : FsState).lookup =
          st2.lookup from rfl, h2L]
      exact hnodup.not_mem_erase
    · rw [show ({ st2 with totalRefCount := st2.totalRefCount - 1 } : FsState).lookup =
          st2.lookup from rfl, h2L]
      exact (List.mem_erase_of_ne hpid_ne).mpr hpid_mem
    · intro hcontra
      exact Bool.noConfusion hcontra

/-- Witness for C2_close_dirty_cycles_parent: dirty child "/10/11"
(refCount 1) with registered parent "/10", reopen succeeding. -/
theorem C2_close_dirty_cycles_parent_witness :
    (UefiFile.FileClose
        { canOpen := fun _ => true, resolve := fun _ _ => none, nodeIsDir := fun _ => true,
          deleteOk := fun _ => true, readOnly := false, errStatus := .notFound }
        { files := fun n => if n = 1 then
              some { path := [10, 11], refCount := 1, isRoot := false, isDir := false,
                     inode := some { mftNo := 30, gen := 0, dirty := true } }
            else if n = 2 then
              some { path := [10], refCount := 1, isRoot := false, isDir := true,
                     inode := some { mftNo := 20, gen := 1, dirty := false } }
            else none,
          nextId := 3, lookup := [1, 2], totalRefCount := 2, mountCount := 1, label := none,
          inFsList := true, openGen := 2, engineOpens := 2, engineDeletes := 0,
          logErrors := 0 } 1).1 = .success ∧
    (UefiFile.FileClose
        { canOpen := fun _ => true, resolve := fun _ _ => none, nodeIsDir := fun _ => true,
          deleteOk := fun _ => true, readOnly := false, errStatus := .notFound }
        { files := fun n => if n = 1 then
              some { path := [10, 11], refCount := 1, isRoot := false, isDir := false,
                     inode := some { mftNo := 30, gen := 0, dirty := true } }
            else if n = 2 then
              some { path := [10], refCount := 1, isRoot := false, isDir := true,
                     inode := some { mftNo := 20, gen := 1, dirty := false } }
            else none,
          nextId := 3, lookup := [1, 2], totalRefCount := 2, mountCount := 1, label := none,
          inFsList := true, openGen := 2, engineOpens := 2, engineDeletes := 0,
          logErrors := 0 } 1).2.files 1 = none ∧
    1 ∉ (UefiFile.FileClose
        { canOpen := fun _ => true, resolve := fun _ _ => none, nodeIsDir := fun _ => true,
          deleteOk := fun _ => true, readOnly := false, errStatus := .notFound }
        { files := fun n => if n = 1 then
              some { path := [10, 11], refCount := 1, isRoot := false, isDir := false,
                     inode := some { mftNo := 30, gen := 0, dirty := true } }
            else if n = 2 then
              some { path := [10], refCount := 1, isRoot := false, isDir := true,
                     inode := some { mftNo := 20, gen := 1, dirty := false } }
            else none,
          nextId := 3, lookup := [1, 2], totalRefCount := 2, mountCount := 1, label := none,
          inFsList := true, openGen := 2, engineOpens := 2, engineDeletes := 0,
          logErrors := 0 } 1).2.lookup ∧
    (true = true →
       2 ∈ (UefiFile.FileClose
          { canOpen := fun _ => true, resolve := fun _ _ => none, nodeIsDir := fun _ => true,
            deleteOk := fun _ => true, readOnly := false, errStatus := .notFound }
          { files := fun n => if n = 1 then
                some { path := [10, 11], refCount := 1, isRoot := false, isDir := false,
                       inode := some { mftNo := 30, gen := 0, dirty := true } }
              else if n = 2 then
                some { path := [10], refCount := 1, isRoot := false, isDir := true,
                       inode := some { mftNo := 20, gen := 1, dirty := false } }
              else none,
            nextId := 3, lookup := [1, 2], totalRefCount := 2, mountCount := 1, label := none,
            inFsList := true, openGen := 2, engineOpens := 2, engineDeletes := 0,
            logErrors := 0 } 1).2.lookup ∧
       (UefiFile.FileClose
          { canOpen := fun _ => true, resolve := fun _ _ => none, nodeIsDir := fun _ => true,
            deleteOk := fun _ => true, readOnly := false, errStatus := .notFound }
          { files := fun n => if n = 1 then
                some { path := [10, 11], refCount := 1, isRoot := false, isDir := false,
                       inode := some { mftNo := 30, gen := 0, dirty := true } }
              else if n = 2 then
                some { path := [10], refCount := 1, isRoot := false, isDir := true,
                       inode := some { mftNo := 20, gen := 1, dirty := false } }
              else none,
            nextId := 3, lookup := [1, 2], totalRefCount := 2, mountCount := 1, label := none,
            inFsList := true, openGen := 2, engineOpens := 2, engineDeletes := 0,
            logErrors := 0 } 1).2.files 2 =
         some { path := [10], refCount := 1, isRoot := false, isDir := true,
                inode := some { mftNo := 20, gen := 2, dirty := false } }) ∧
    (true = false →
       2 ∉ (UefiFile.FileClose
          { canOpen := fun _ => true, resolve := fun _ _ => none, nodeIsDir := fun _ => true,
            deleteOk := fun _ => true, readOnly := false, errStatus := .notFound }
          { files := fun n => if n = 1 then
                some { path := [10, 11], refCount := 1, isRoot := false, isDir := false,
                       inode := some { mftNo := 30, gen := 0, dirty := true } }
              else if n = 2 then
                some { path := [10], refCount := 1, isRoot := false, isDir := true,
                       inode := some { mftNo := 20, gen := 1, dirty := false } }
              else none,
            nextId := 3, lookup := [1, 2], totalRefCount := 2, mountCount := 1, label := none,
            inFsList := true, openGen := 2, engineOpens := 2, engineDeletes := 0,
            logErrors := 0 } 1).2.lookup ∧
       (UefiFile.FileClose
          { canOpen := fun _ => true, resolve := fun _ _ => none, nodeIsDir := fun _ => true,
            deleteOk := fun _ => true, readOnly := false, errStatus := .notFound }
          { files := fun n => if n = 1 then
                some { path := [10, 11], refCount := 1, isRoot := false, isDir := false,
                       inode := some { mftNo := 30, gen := 0, dirty := true } }
              else if n = 2 then
                some { path := [10], refCount := 1, isRoot := false, isDir := true,
                       inode := some { mftNo := 20, gen := 1, dirty := false } }
              else none,
            nextId := 3, lookup := [1, 2], totalRefCount := 2, mountCount := 1, label := none,
            inFsList := true, openGen := 2, engineOpens := 2, engineDeletes := 0,
            logErrors := 0 } 1).2.files 2 =
         some { path := [10], refCount := 1, isRoot := false, isDir := true, inode := none } ∧
       0 < (UefiFile.FileClose
          { canOpen := fun _ => true, resolve := fun _ _ => none, nodeIsDir := fun _ => true,
            deleteOk := fun _ => true, readOnly := false, errStatus := .notFound }
          { files := fun n => if n = 1 then
                some { path := [10, 11], refCount := 1, isRoot := false, isDir := false,
                       inode := some { mftNo := 30, gen := 0, dirty := true } }
              else if n = 2 then
                some { path := [10], refCount := 1, isRoot := false, isDir := true,
                       inode := some { mftNo := 20, gen := 1, dirty := false } }
              else none,
            nextId := 3, lookup := [1, 2], totalRefCount := 2, mountCount := 1, label := none,
            inFsList := true, openGen := 2, engineOpens := 2, engineDeletes := 0,
            logErrors := 0 } 1).2.logErrors) :=
  C2_close_dirty_cycles_parent
    { canOpen := fun _ => true, resolve := fun _ _ => none, nodeIsDir := fun _ => true,
      deleteOk := fun _ => true, readOnly := false, errStatus := .notFound }
    { files := fun n => if n = 1 then
          some { path := [10, 11], refCount := 1, isRoot := false, isDir := false,
                 inode := some { mftNo := 30, gen := 0, dirty := true } }
        else if n = 2 then
          some { path := [10], refCount := 1, isRoot := false, isDir := true,
                 inode := some { mftNo := 20, gen := 1, dirty := false } }
        else none,
      nextId := 3, lookup := [1, 2], totalRefCount := 2, mountCount := 1, label := none,
      inFsList := true, openGen := 2, engineOpens := 2, engineDeletes := 0, logErrors := 0 }
    1 2
    { path := [10, 11], refCount := 1, isRoot := false, isDir := false,
      inode := some { mftNo := 30, gen := 0, dirty := true } }
    { path := [10], refCount := 1, isRoot := false, isDir := true,
      inode := some { mftNo := 20, gen := 1, dirty := false } }
    { mftNo := 30, gen := 0, dirty := true }
    { mftNo := 20, gen := 1, dirty := false }
    rfl rfl rfl rfl (by decide) rfl rfl (by decide) (by decide)

/-- Whatever the dirty/parent/reopen situation, `NtfsCloseFile` leaves
the closed file's heap slot alone, removes it from a duplicate-free
registry, and does not touch the volume's total reference count. -/
theorem closeFile_unregisters (eng : Engine) (st : FsState) (fid : Nat) (f0 : FileRec)
    (hf0 : st.files fid = some f0) (hnodup : st.lookup.Nodup) :
    (Bridge.NtfsCloseFile eng st fid).files fid = some f0 ∧
    fid ∉ (Bridge.NtfsCloseFile eng st fid).lookup ∧
    (Bridge.NtfsCloseFile eng st fid).totalRefCount = st.totalRefCount := by
  have hengF : ∀ num, (Bridge.engOpenInode eng st num).2.files = st.files ∧
      (Bridge.engOpenInode eng st num).2.lookup = st.lookup ∧
      (Bridge.engOpenInode eng st num).2.totalRefCount = st.totalRefCount := by
    intro num
    unfold Bridge.engOpenInode
    split <;> simp
  simp only [Bridge.NtfsCloseFile, hf0]
  split
  · exact ⟨hf0, hnodup.not_mem_erase, rfl⟩
  · rename_i pid hpp
    have hpid_ne : fid ≠ pid := by
      intro h
      subst h
      by_cases hb : (match f0.inode with | some i => i.dirty | none => false) = true
      · rw [if_pos hb] at hpp
        unfold Bridge.NtfsLookupParent at hpp
        rw [hf0] at hpp
        have := List.find?_some hpp
        simp [Bridge.parentMatches] at this
      · rw [if_neg hb] at hpp
        exact Option.noConfusion hpp
    split
    · rename_i i p hio hfp2
      refine ⟨?_, ?_, ?_⟩
      · simp [Bridge.NtfsLookupRem, Bridge.setF, hpid_ne, (hengF _).1, hf0]
      · simp only [Bridge.NtfsLookupRem, Bridge.setF]
        rw [show ({ (Bridge.engOpenInode eng st _).2 with
            files := _ } : FsState).lookup = st.lookup from (hengF _).2.1]
        exact hnodup.not_mem_erase
      · simp [Bridge.NtfsLookupRem, Bridge.setF, (hengF _).2.2]
    · rename_i p hio hfp2
      refine ⟨?_, ?_, ?_⟩
      · simp [Bridge.NtfsLookupRem, Bridge.setF, hpid_ne, (hengF _).1, hf0]
      · simp only [Bridge.NtfsLookupRem, Bridge.setF]
        rw [show ({ (Bridge.engOpenInode eng st _).2 with
            files := _, logErrors := _ } : FsState).lookup.erase pid =
          st.lookup.erase pid from by rw [(hengF _).2.1]]
        exact ((hnodup.erase pid).not_mem_erase)
      · simp [Bridge.NtfsLookupRem, Bridge.setF, (hengF _).2.2]
    · refine ⟨?_, ?_, ?_⟩
      · simp [Bridge.NtfsLookupRem, (hengF _).1, hf0]
      · simp only [Bridge.NtfsLookupRem]
        rw [(hengF _).2.1]
        exact hnodup.not_mem_erase
      · simp [Bridge.NtfsLookupRem, (hengF _).2.2]

/-- A Close that does not drop the last reference only decrements the
handle's reference count and the volume's total. -/
theorem fileClose_decrement (eng : Engine) (S : FsState) (fid : Nat) (fS : FileRec)
    (hfS : S.files fid = some fS) (hrc : ¬ fS.refCount - 1 ≤ 0)
    (ht : ¬ S.totalRefCount - 1 ≤ 0) :
    (UefiFile.FileClose eng S fid).1 = .success ∧
    (UefiFile.FileClose eng S fid).2.files fid = some { fS with refCount := fS.refCount - 1 } ∧
    (UefiFile.FileClose eng S fid).2.lookup = S.lookup ∧
    (UefiFile.FileClose eng S fid).2.totalRefCount = S.totalRefCount - 1 ∧
    (∀ g2, g2 ≠ fid → (UefiFile.FileClose eng S fid).2.files g2 = S.files g2) := by
  have hmain : UefiFile.FileClose eng S fid =
      (.success, { (Bridge.setF S fid { fS with refCount := fS.refCount - 1 }) with
          totalRefCount := S.totalRefCount - 1 }) := by
    simp only [UefiFile.FileClose, hfS, Bridge.setF]
    rw [if_neg hrc, if_neg ht]
  rw [hmain]
  refine ⟨rfl, ?_, ?_, rfl, fun g2 hg => ?_⟩
  · simp [Bridge.setF]
  · simp [Bridge.setF]
  · simp [Bridge.setF, hg]

/-- C4: a handle with reference count N needs exactly N Close calls:
each of the first N-1 only decrements the count (registry, heap and all
other files untouched), and the N-th removes the handle from the lookup
registry and releases its record, after which no path or number Lookup
can return it. -/
theorem C4_refcount_gates_destruction
    (eng : Engine) (st : FsState) (fid : Nat) (f : FileRec) (N : Nat)
    (hf : st.files fid = some f) (hN : f.refCount = (N : Int)) (h1 : 1 ≤ N)
    (hmem : fid ∈ st.lookup) (hnodup : st.lookup.Nodup)
    (htot : (N : Int) ≤ st.totalRefCount) :
    (∀ k, k < N →
       (UefiFile.closeN eng st fid k).files fid =
         some { f with refCount := f.refCount - (k : Int) } ∧
       (UefiFile.closeN eng st fid k).lookup = st.lookup ∧
       (UefiFile.closeN eng st fid k).totalRefCount = st.totalRefCount - (k : Int) ∧
       (∀ g2, g2 ≠ fid → (UefiFile.closeN eng st fid k).files g2 = st.files g2)) ∧
    (UefiFile.closeN eng st fid N).files fid = none ∧
    fid ∉ (UefiFile.closeN eng st fid N).lookup ∧
    (∀ P inum, Bridge.NtfsLookup (UefiFile.closeN eng st fid N) P inum ≠ some fid) := by
  have hinv : ∀ k, k < N →
      (UefiFile.closeN eng st fid k).files fid =
        some { f with refCount := f.refCount - (k : Int) } ∧
      (UefiFile.closeN eng st fid k).lookup = st.lookup ∧
      (UefiFile.closeN eng st fid k).totalRefCount = st.totalRefCount - (k : Int) ∧
      (∀ g2, g2 ≠ fid → (UefiFile.closeN eng st fid k).files g2 = st.files g2) := by
    intro k
    induction k with
    | zero =>
      intro _
      refine ⟨?_, rfl, ?_, fun g2 hg => rfl⟩
      · show st.files fid = _
        rw [hf, show f.refCount - ((0 : Nat) : Int) = f.refCount from by push_cast; ring]
      · show st.totalRefCount = st.totalRefCount - ((0 : Nat) : Int)
        push_cast
        ring
    | succ k ih =>
      intro hk1
      obtain ⟨hA, hB, hC, hD⟩ := ih (by omega)
      have hstep := fileClose_decrement eng (UefiFile.closeN eng st fid k) fid
        { f with refCount := f.refCount - (k : Int) } hA
        (by simp only []; simp; omega)
        (by rw [hC]; omega)
      refine ⟨?_, ?_, ?_, fun g2 hg => ?_⟩
      · rw [show UefiFile.closeN eng st fid (k + 1) =
            (UefiFile.FileClose eng (UefiFile.closeN eng st fid k) fid).2 from rfl]
        rw [hstep.2.1]
        congr 2
        push_cast
        ring
      · rw [show UefiFile.closeN eng st fid (k + 1) =
            (UefiFile.FileClose eng (UefiFile.closeN eng st fid k) fid).2 from rfl]
        rw [hstep.2.2.1, hB]
      · rw [show UefiFile.closeN eng st fid (k + 1) =
            (UefiFile.FileClose eng (UefiFile.closeN eng st fid k) fid).2 from rfl]
        rw [hstep.2.2.2.1, hC]
        push_cast
        ring
      · rw [show UefiFile.closeN eng st fid (k + 1) =
            (UefiFile.FileClose eng (UefiFile.closeN eng st fid k) fid).2 from rfl]
        rw [hstep.2.2.2.2 g2 hg, hD g2 hg]
  obtain ⟨m, rfl⟩ : ∃ m, N = m + 1 := ⟨N - 1, by omega⟩
  obtain ⟨hA, hB, hC, hD⟩ := hinv m (by omega)
  obtain ⟨S, hS⟩ : ∃ s, s = UefiFile.closeN eng st fid m := ⟨_, rfl⟩
  have hSfid : S.files fid = some { f with refCount := f.refCount - (m : Int) } := by
    rw [hS]; exact hA
  have hSlk : S.lookup = st.lookup := by rw [hS]; exact hB
  have hSt : S.totalRefCount = st.totalRefCount - (m : Int) := by rw [hS]; exact hC
  obtain ⟨st1m, hst1m⟩ : ∃ s : FsState, s = Bridge.setF S fid
      { ({ f with refCount := f.refCount - (m : Int) } : FileRec) with
          refCount := ({ f with refCount := f.refCount - (m : Int) } :
            FileRec).refCount - 1 } := ⟨_, rfl⟩
  have h1mfid : st1m.files fid =
      some { f with refCount := f.refCount - (m : Int) - 1 } := by
    rw [hst1m]; simp [Bridge.setF]
  have h1mlk : st1m.lookup = st.lookup := by rw [hst1m, Bridge.setF, hSlk]
  have h1mt : st1m.totalRefCount = st.totalRefCount - (m : Int) := by
    rw [hst1m, Bridge.setF]; exact hSt
  have hcu := closeFile_unregisters eng st1m fid
    { f with refCount := f.refCount - (m : Int) - 1 } h1mfid (h1mlk ▸ hnodup)
  have hfree := freeFile_proj (Bridge.NtfsCloseFile eng st1m fid) fid
    { f with refCount := f.refCount - (m : Int) - 1 } hcu.1 (by simp; omega)
  have hmain : UefiFile.closeN eng st fid (m + 1) =
      (if ({ (Bridge.NtfsFreeFile (Bridge.NtfsCloseFile eng st1m fid) fid) with
            totalRefCount := (Bridge.NtfsFreeFile (Bridge.NtfsCloseFile eng st1m fid)
              fid).totalRefCount - 1 } : FsState).totalRefCount ≤ 0 then
        Bridge.NtfsUnmountVolume
          { (Bridge.NtfsFreeFile (Bridge.NtfsCloseFile eng st1m fid) fid) with
              totalRefCount := (Bridge.NtfsFreeFile (Bridge.NtfsCloseFile eng st1m fid)
                fid).totalRefCount - 1 }
      else
        { (Bridge.NtfsFreeFile (Bridge.NtfsCloseFile eng st1m fid) fid) with
            totalRefCount := (Bridge.NtfsFreeFile (Bridge.NtfsCloseFile eng st1m fid)
              fid).totalRefCount - 1 }) := by
    rw [show UefiFile.closeN eng st fid (m + 1) =
        (UefiFile.FileClose eng (UefiFile.closeN eng st fid m) fid).2 from rfl, ← hS]
    simp only [UefiFile.FileClose, hSfid, ← hst1m]
    rw [if_pos (show ({ f with refCount := f.refCount - (m : Int) } :
      FileRec).refCount - 1 ≤ 0 from by simp; omega)]
  have hres_files : (UefiFile.closeN eng st fid (m + 1)).files fid = none := by
    rw [hmain]
    split
    · simp [Bridge.NtfsUnmountVolume, hfree.1]
    · simp [hfree.1]
  have hres_lookup : fid ∉ (UefiFile.closeN eng st fid (m + 1)).lookup := by
    rw [hmain]
    split
    · simp [Bridge.NtfsUnmountVolume]
    · rw [show ∀ s : FsState, ({ s with totalRefCount := s.totalRefCount - 1 } :
          FsState).lookup = s.lookup from fun s => rfl]
      rw [hfree.2.1]
      exact hcu.2.1
  refine ⟨hinv, hres_files, hres_lookup, fun P inum hcl => ?_⟩
  exact hres_lookup (List.mem_of_find?_eq_some hcl)

/-- Witness for C4_refcount_gates_destruction: a handle "/7" with
reference count 2 on a volume whose total reference count is 2. -/
theorem C4_refcount_gates_destruction_witness :
    (∀ k, k < 2 →
       (UefiFile.closeN
           { canOpen := fun _ => true, resolve := fun _ _ => none, nodeIsDir := fun _ => false,
             deleteOk := fun _ => true, readOnly := false, errStatus := .notFound }
           { files := fun n => if n = 0 then
                 some { path := [7], refCount := 2, isRoot := false, isDir := false,
                        inode := some { mftNo := 40, gen := 0, dirty := false } }
               else none,
             nextId := 1, lookup := [0], totalRefCount := 2, mountCount := 1, label := none,
             inFsList := true, openGen := 1, engineOpens := 1, engineDeletes := 0,
             logErrors := 0 } 0 k).files 0 =
         some { path := [7], refCount := 2 - (k : Int), isRoot := false, isDir := false,
                inode := some { mftNo := 40, gen := 0, dirty := false } } ∧
       (UefiFile.closeN
           { canOpen := fun _ => true, resolve := fun _ _ => none, nodeIsDir := fun _ => false,
             deleteOk := fun _ => true, readOnly := false, errStatus := .notFound }
           { files := fun n => if n = 0 then
                 some { path := [7], refCount := 2, isRoot := false, isDir := false,
                        inode := some { mftNo := 40, gen := 0, dirty := false } }
               else none,
             nextId := 1, lookup := [0], totalRefCount := 2, mountCount := 1, label := none,
             inFsList := true, openGen := 1, engineOpens := 1, engineDeletes := 0,
             logErrors := 0 } 0 k).lookup = [0] ∧
       (UefiFile.closeN
           { canOpen := fun _ => true, resolve := fun _ _ => none, nodeIsDir := fun _ => false,
             deleteOk := fun _ => true, readOnly := false, errStatus := .notFound }
           { files := fun n => if n = 0 then
                 some { path := [7], refCount := 2, isRoot := false, isDir := false,
                        inode := some { mftNo := 40, gen := 0, dirty := false } }
               else none,
             nextId := 1, lookup := [0], totalRefCount := 2, mountCount := 1, label := none,
             inFsList := true, openGen := 1, engineOpens := 1, engineDeletes := 0,
             logErrors := 0 } 0 k).totalRefCount = 2 - (k : Int) ∧
       (∀ g2, g2 ≠ 0 →
         (UefiFile.closeN
             { canOpen := fun _ => true, resolve := fun _ _ => none, nodeIsDir := fun _ => false,
               deleteOk := fun _ => true, readOnly := false, errStatus := .notFound }
             { files := fun n => if n = 0 then
                   some { path := [7], refCount := 2, isRoot := false, isDir := false,
                          inode := some { mftNo := 40, gen := 0, dirty := false } }
                 else none,
               nextId := 1, lookup := [0], totalRefCount := 2, mountCount := 1, label := none,
               inFsList := true, openGen := 1, engineOpens := 1, engineDeletes := 0,
               logErrors := 0 } 0 k).files g2 =
           (if g2 = 0 then
               some { path := [7], refCount := 2, isRoot := false, isDir := false,
                      inode := some { mftNo := 40, gen := 0, dirty := false } }
             else none))) ∧
    (UefiFile.closeN
        { canOpen := fun _ => true, resolve := fun _ _ => none, nodeIsDir := fun _ => false,
          deleteOk := fun _ => true, readOnly := false, errStatus := .notFound }
        { files := fun n => if n = 0 then
              some { path := [7], refCount := 2, isRoot := false, isDir := false,
                     inode := some { mftNo := 40, gen := 0, dirty := false } }
            else none,
          nextId := 1, lookup := [0], totalRefCount := 2, mountCount := 1, label := none,
          inFsList := true, openGen := 1, engineOpens := 1, engineDeletes := 0,
          logErrors := 0 } 0 2).files 0 = none ∧
    0 ∉ (UefiFile.closeN
        { canOpen := fun _ => true, resolve := fun _ _ => none, nodeIsDir := fun _ => false,
          deleteOk := fun _ => true, readOnly := false, errStatus := .notFound }
        { files := fun n => if n = 0 then
              some { path := [7], refCount := 2, isRoot := false, isDir := false,
                     inode := some { mftNo := 40, gen := 0, dirty := false } }
            else none,
          nextId := 1, lookup := [0], totalRefCount := 2, mountCount := 1, label := none,
          inFsList := true, openGen := 1, engineOpens := 1, engineDeletes := 0,
          logErrors := 0 } 0 2).lookup ∧
    (∀ P inum, Bridge.NtfsLookup
        (UefiFile.closeN
          { canOpen := fun _ => true, resolve := fun _ _ => none, nodeIsDir := fun _ => false,
            deleteOk := fun _ => true, readOnly := false, errStatus := .notFound }
          { files := fun n => if n = 0 then
                some { path := [7], refCount := 2, isRoot := false, isDir := false,
                       inode := some { mftNo := 40, gen := 0, dirty := false } }
              else none,
            nextId := 1, lookup := [0], totalRefCount := 2, mountCount := 1, label := none,
            inFsList := true, openGen := 1, engineOpens := 1, engineDeletes := 0,
            logErrors := 0 } 0 2) P inum ≠ some 0) :=
  C4_refcount_gates_destruction
    { canOpen := fun _ => true, resolve := fun _ _ => none, nodeIsDir := fun _ => false,
      deleteOk := fun _ => true, readOnly := false, errStatus := .notFound }
    { files := fun n => if n = 0 then
          some { path := [7], refCount := 2, isRoot := false, isDir := false,
                 inode := some { mftNo := 40, gen := 0, dirty := false } }
        else none,
      nextId := 1, lookup := [0], totalRefCount := 2, mountCount := 1, label := none,
      inFsList := true, openGen := 1, engineOpens := 1, engineDeletes := 0, logErrors := 0 } 0
    { path := [7], refCount := 2, isRoot := false, isDir := false,
      inode := some { mftNo := 40, gen := 0, dirty := false } } 2
    rfl (by decide) (by decide) (by decide) (by decide) (by decide)
